import Mathlib

/-!
Shallow embedding of the `.ase` binary codec in `src/file/ase_format.cpp`
(the chunk-based sprite container reader/writer), together with proofs
about its header, palette, layer-tree, cel and driver logic.

The embedding models the C `FILE*` stream as a list of bytes plus a
cursor; `ftell` is the cursor, `fseek(..., SEEK_SET)` replaces it.  The
collaborating document model (`Sprite`, `Palette`, `Layer`, `Cel`,
`Image`, the image stock) lives in the raster library outside the
sources at hand; those accessors are modelled from the spec (sections 3
and 6) and are marked as such in their doc comments.
-/

namespace Ase

/-- A readable byte stream with a seekable cursor: models `FILE*` opened
for reading, with `ftell` = `pos` and `fseek(f, p, SEEK_SET)` setting
`pos := p`.  Bytes are values `0..255`; a read past the end of the data
yields 0. -/
structure AseStream where
  data : List Nat
  pos : Nat
deriving DecidableEq

/-- The byte stored at offset `i` of a stream's data (0 past the end). -/
def byteAt (d : List Nat) (i : Nat) : Nat := d.getD i 0 % 256

/-- `fgetc`: read one byte at the cursor and advance it. -/
def fgetc (s : AseStream) : Nat × AseStream :=
  (byteAt s.data s.pos, ⟨s.data, s.pos + 1⟩)

/-- The 16-bit little-endian word stored at offset `i`. -/
def wordAt (d : List Nat) (i : Nat) : Nat := byteAt d i + 256 * byteAt d (i + 1)

/-- Modelled from the spec: `fgetw` lives in the file-format support code
outside the sources at hand; spec section 6 fixes every integer as
little-endian, so a 16-bit read is low byte first. -/
def fgetw (s : AseStream) : Nat × AseStream :=
  let (b0, s) := fgetc s
  let (b1, s) := fgetc s
  (b0 + 256 * b1, s)

/-- Modelled from the spec: `fgetl`, the little-endian 32-bit read. -/
def fgetl (s : AseStream) : Nat × AseStream :=
  let (b0, s) := fgetc s
  let (b1, s) := fgetc s
  let (b2, s) := fgetc s
  let (b3, s) := fgetc s
  (b0 + 256 * (b1 + 256 * (b2 + 256 * b3)), s)

/-- `fseek(f, p, SEEK_SET)`. -/
def fseekSet (s : AseStream) (p : Nat) : AseStream := ⟨s.data, p⟩

/-- `ase_file_read_padding`: consume `n` bytes and drop them. -/
def ase_file_read_padding (s : AseStream) (n : Nat) : AseStream :=
  ⟨s.data, s.pos + n⟩

/-- `ase_file_read_string`: a 16-bit byte length followed by that many raw
bytes (kept as a byte list). -/
def ase_file_read_string (s : AseStream) : List Nat × AseStream :=
  let (length, s) := fgetw s
  ((s.data.drop s.pos).take length |>.map (· % 256), ⟨s.data, s.pos + length⟩)

/-- Interpret a 16-bit word as the signed `(short)` cast the cel reader
applies to x/y offsets. -/
def toSigned16 (v : Nat) : Int :=
  if v % 65536 < 32768 then (v % 65536 : Int) else (v % 65536 : Int) - 65536

/-- Modelled from the spec: the raster library's `_rgba` packing — an RGBA
entry packs the four 8-bit components, red in the lowest byte. -/
def rgba (r g b a : Nat) : Nat :=
  r % 256 + 256 * (g % 256 + 256 * (b % 256 + 256 * (a % 256)))

/-- Modelled from the spec: `_rgba_getr`. -/
def rgbaGetr (c : Nat) : Nat := c % 256

/-- Modelled from the spec: `_rgba_getg`. -/
def rgbaGetg (c : Nat) : Nat := c / 256 % 256

/-- Modelled from the spec: `_rgba_getb`. -/
def rgbaGetb (c : Nat) : Nat := c / 65536 % 256

/-- Modelled from the spec: `_rgba_geta`. -/
def rgbaGeta (c : Nat) : Nat := c / 16777216 % 256

/-- Modelled from the spec: the raster library's `_graya` packing
(grayscale value in the low byte, alpha above it). -/
def graya (k a : Nat) : Nat := k % 256 + 256 * (a % 256)

/-- Modelled from the spec: the raster library's 6-bit to 8-bit component
scaling table `_rgb_scale_6`, used only by the legacy palette chunk. -/
def rgbScale6 (v : Nat) : Nat := (v % 64) * 255 / 63

-- Chunk type codes (the `#define`s at the top of the source file).
def ASE_FILE_MAGIC : Nat := 0xA5E0
def ASE_FILE_FRAME_MAGIC : Nat := 0xF1FA
def ASE_FILE_CHUNK_FLI_COLOR2 : Nat := 4
def ASE_FILE_CHUNK_FLI_COLOR : Nat := 11
def ASE_FILE_CHUNK_LAYER : Nat := 0x2004
def ASE_FILE_CHUNK_CEL : Nat := 0x2005
def ASE_FILE_CHUNK_MASK : Nat := 0x2016
def ASE_FILE_CHUNK_PATH : Nat := 0x2017
def ASE_FILE_RAW_CEL : Nat := 0
def ASE_FILE_LINK_CEL : Nat := 1
def ASE_FILE_COMPRESSED_CEL : Nat := 2

/-- Pixel formats of the document model (`IMAGE_RGB`, `IMAGE_GRAYSCALE`,
`IMAGE_INDEXED`). -/
inductive PixelFormat
  | rgb
  | grayscale
  | indexed
deriving DecidableEq

/-- Bytes per pixel on the wire for each format (spec section 4.5). -/
def PixelFormat.bpp : PixelFormat → Nat
  | .rgb => 4
  | .grayscale => 2
  | .indexed => 1

/-- Modelled from the spec: an `Image` of the raster library — an owned
pixel buffer with its dimensions and format, row-major. -/
structure Image where
  pixelFormat : PixelFormat
  w : Nat
  h : Nat
  pixels : List Nat
deriving DecidableEq

instance : Inhabited Image := ⟨⟨.indexed, 0, 0, []⟩⟩

/-- Modelled from the spec: `Image::create` — a fresh zeroed pixel buffer. -/
def Image.create (fmt : PixelFormat) (w h : Nat) : Image :=
  ⟨fmt, w, h, List.replicate (w * h) 0⟩

/-- Modelled from the spec: `Image::createCopy` — a brand-new image whose
pixels are a full copy of the source's. -/
def Image.createCopy (src : Image) : Image := src

/-- Modelled from the spec: a `Cel` — frame index, signed position offset,
opacity, and the stock handle of its image (`new Cel(frame, 0)` starts
with image handle 0). -/
structure Cel where
  frame : Nat
  x : Int
  y : Int
  opacity : Nat
  image : Nat
deriving DecidableEq

/-- Modelled from the spec: a `Palette` — an ordered list of packed RGBA
entries tagged with the frame at which it becomes active. -/
structure Palette where
  frame : Nat
  entries : List Nat
deriving DecidableEq

instance : Inhabited Palette := ⟨⟨0, []⟩⟩

/-- Modelled from the spec: `Palette::setEntry` (writes a packed RGBA value
at an index; out-of-range writes are dropped). -/
def Palette.setEntry (p : Palette) (i c : Nat) : Palette :=
  { p with entries := p.entries.set i c }

/-- Modelled from the spec: `Palette::countDiff` counts the entries at
which two palettes differ. -/
def countDiff (p q : Palette) : Nat :=
  (List.range (max p.entries.length q.entries.length)).countP
    (fun i => decide (p.entries.getD i 0 ≠ q.entries.getD i 0))

/-- One layer of the sprite's layer tree.  The C++ `Layer` objects form a
pointer graph (a folder's ordered children plus a parent pointer back);
here every layer lives in the flat store `Sprite.layers` — index 0 is the
root folder returned by `Sprite::getFolder` — and `parent` is the store
index of the parent layer, mirroring the parent pointer (the root is its
own parent).  `isImage = true` is a `LayerImage`, `false` a `LayerFolder`. -/
structure LayerRec where
  isImage : Bool
  flags : Nat
  name : List Nat
  parent : Nat
  cels : List Cel
deriving DecidableEq

instance : Inhabited LayerRec := ⟨⟨false, 0, [], 0, []⟩⟩

/-- Modelled from the spec (sections 3 and 6): the `Sprite` accessor
surface the codec consumes — canvas metadata, per-frame durations, the
frame-tagged palette list, the layer store and the image stock. -/
structure Sprite where
  pixelFormat : PixelFormat
  width : Nat
  height : Nat
  ncolors : Nat
  transparentColor : Nat
  totalFrames : Nat
  durations : List Nat
  palettes : List Palette
  layers : List LayerRec
  stock : List Image
deriving DecidableEq

/-- Modelled from the spec: `Sprite` construction — canvas metadata, one
frame with the default duration, an `ncolors`-entry initial palette active
from frame 0, the root folder layer and an empty image stock. -/
def Sprite.new (fmt : PixelFormat) (w h ncolors : Nat) : Sprite :=
  { pixelFormat := fmt, width := w, height := h, ncolors := ncolors,
    transparentColor := 0, totalFrames := 1, durations := [100],
    palettes := [⟨0, List.replicate ncolors (rgba 0 0 0 255)⟩],
    layers := [⟨false, 0, [], 0, []⟩],
    stock := [] }

/-- Modelled from the spec: the palette active at a frame — the last
palette in the frame-ordered list whose frame tag is at most `frame`. -/
def getPaletteFrom (pals : List Palette) (frame : Nat) : Palette :=
  (pals.filter (fun p => p.frame ≤ frame)).getLastD default

/-- Modelled from the spec: `Sprite::getPalette(frame)`. -/
def Sprite.getPalette (sp : Sprite) (frame : Nat) : Palette :=
  getPaletteFrom sp.palettes frame

/-- Modelled from the spec: `Sprite::setPalette(pal, true)` — replace the
palette tagged with `pal`'s frame (or insert it, keeping the list ordered
by frame tag). -/
def Sprite.setPalette (sp : Sprite) (pal : Palette) : Sprite :=
  { sp with palettes :=
      sp.palettes.filter (fun p => p.frame < pal.frame) ++ [pal] ++
      sp.palettes.filter (fun p => pal.frame < p.frame) }

/-- Modelled from the spec: `Sprite::setTotalFrames` resizes the per-frame
duration list (new frames get the default duration). -/
def Sprite.setTotalFrames (sp : Sprite) (n : Nat) : Sprite :=
  { sp with totalFrames := n,
            durations := sp.durations.take n ++
              List.replicate (n - sp.durations.length) 100 }

/-- Modelled from the spec: `Sprite::setDurationForAllFrames`. -/
def Sprite.setDurationForAllFrames (sp : Sprite) (d : Nat) : Sprite :=
  { sp with durations := List.replicate sp.totalFrames d }

/-- Modelled from the spec: `Sprite::setFrameDuration` (out-of-range frame
indices are dropped). -/
def Sprite.setFrameDuration (sp : Sprite) (f d : Nat) : Sprite :=
  { sp with durations := sp.durations.set f d }

/-- `Layer::getParent`, on store indices. -/
def Sprite.layerParent (sp : Sprite) (i : Nat) : Nat :=
  (sp.layers.getD i default).parent

/-- Modelled from the spec: `Sprite::indexToLayer` resolves a cel chunk's
layer index to a layer or fails (`NULL`) when it is out of range; indices
count the layers in the order they were added, excluding the root folder
(store index 0). -/
def Sprite.indexToLayer (sp : Sprite) (i : Nat) : Option Nat :=
  if i + 1 < sp.layers.length then some (i + 1) else none

/-- Modelled from the spec: `LayerImage::getCel(frame)` — the layer's cel
at the given frame, if any. -/
def Sprite.getCel (sp : Sprite) (li : Nat) (frame : Nat) : Option Cel :=
  ((sp.layers.getD li default).cels.filter (fun c => c.frame = frame)).head?

/-- The document header (`ASE_Header`), sans the remembered file offset. -/
structure ASE_Header where
  size : Nat
  magic : Nat
  frames : Nat
  width : Nat
  height : Nat
  depth : Nat
  flags : Nat
  speed : Nat
  next : Nat
  frit : Nat
  transparent_index : Nat
  ignore0 : Nat
  ignore1 : Nat
  ignore2 : Nat
  ncolors : Nat
deriving DecidableEq

/-- The header fields read after the magic word has been accepted
(the tail of `ase_file_read_header`); `pos` is the header's start. -/
def ase_file_read_header_rest (pos size magic : Nat) (s : AseStream) :
    ASE_Header × AseStream :=
  let (frames, s) := fgetw s
  let (width, s) := fgetw s
  let (height, s) := fgetw s
  let (depth, s) := fgetw s
  let (flags, s) := fgetl s
  let (speed, s) := fgetw s
  let (next, s) := fgetl s
  let (frit, s) := fgetl s
  let (transparent_index, s) := fgetc s
  let (ignore0, s) := fgetc s
  let (ignore1, s) := fgetc s
  let (ignore2, s) := fgetc s
  let (ncolors0, s) := fgetw s
  let ncolors := if ncolors0 = 0 then 256 else ncolors0
  (⟨size, magic, frames, width, height, depth, flags, speed, next, frit,
    transparent_index, ignore0, ignore1, ignore2, ncolors⟩,
   fseekSet s (pos + 128))

/-- `ase_file_read_header`: reads the 128-byte document header; fails
(returns `false` in the source, `none` here) as soon as the magic word
does not match, and otherwise reads the remaining fields and seeks to
`pos + 128`. -/
def ase_file_read_header (s : AseStream) : Option (ASE_Header × AseStream) :=
  let pos := s.pos
  let (size, s) := fgetl s
  let (magic, s) := fgetw s
  if magic ≠ ASE_FILE_MAGIC then none
  else some (ase_file_read_header_rest pos size magic s)

/-- The per-frame header (`ASE_FrameHeader`). -/
structure ASE_FrameHeader where
  size : Nat
  magic : Nat
  chunks : Nat
  duration : Nat
deriving DecidableEq

/-- `ase_file_read_frame_header`: size, magic, chunk count, duration and
six bytes of padding (16 bytes in all). -/
def ase_file_read_frame_header (s : AseStream) : ASE_FrameHeader × AseStream :=
  let (size, s) := fgetl s
  let (magic, s) := fgetw s
  let (chunks, s) := fgetw s
  let (duration, s) := fgetw s
  (⟨size, magic, chunks, duration⟩, ase_file_read_padding s 6)

/-! ### Palette chunks

`ase_file_read_color_chunk` (legacy, 6-bit scaled components) and
`ase_file_read_color2_chunk` (direct 8-bit components) have identical
bodies except for the component conversion, so the shared packet loop is
factored out with a `scaled` flag. -/

/-- The inner loop of a palette packet: `size` consecutive entries are
written starting at index `first`, each from three component bytes, with
alpha fixed at 255. -/
def ase_palette_read_run (scaled : Bool) :
    Nat → Nat → Palette → AseStream → Palette × AseStream
  | _, 0, pal, s => (pal, s)
  | first, size + 1, pal, s =>
    let (r, s) := fgetc s
    let (g, s) := fgetc s
    let (b, s) := fgetc s
    let pal := pal.setEntry first
      (if scaled then rgba (rgbScale6 r) (rgbScale6 g) (rgbScale6 b) 255
       else rgba r g b 255)
    ase_palette_read_run scaled (first + 1) size pal s

/-- The packet loop shared by both palette chunk readers: each packet adds
its skip byte to the running index `skip` (which starts at 0) and then
writes `size` consecutive entries there, a size byte of 0 denoting 256. -/
def ase_palette_read_packets (scaled : Bool) :
    Nat → Nat → Palette → AseStream → Palette × AseStream
  | 0, _, pal, s => (pal, s)
  | i + 1, skip, pal, s =>
    let (sk, s) := fgetc s
    let skip := skip + sk
    let (sz, s) := fgetc s
    let size := if sz = 0 then 256 else sz
    let (pal, s) := ase_palette_read_run scaled skip size pal s
    ase_palette_read_packets scaled i skip pal s

/-- `ase_file_read_color_chunk` (legacy kind): copy the palette currently
active at `frame`, retag it with `frame`, and decode the packets with the
6-bit scaling table. -/
def ase_file_read_color_chunk (sp : Sprite) (frame : Nat) (s : AseStream) :
    Palette × AseStream :=
  let pal := { sp.getPalette frame with frame := frame }
  let (packets, s) := fgetw s
  ase_palette_read_packets true packets 0 pal s

/-- `ase_file_read_color2_chunk`: as the legacy kind but with direct 8-bit
component values. -/
def ase_file_read_color2_chunk (sp : Sprite) (frame : Nat) (s : AseStream) :
    Palette × AseStream :=
  let pal := { sp.getPalette frame with frame := frame }
  let (packets, s) := fgetw s
  ase_palette_read_packets false packets 0 pal s

/-! ### Layer chunk -/

/-- `ase_file_read_layer_chunk`: read one layer record (flags, kind,
nesting level, name) and attach the new layer into the tree relative to
`previous_layer`/`current_level`, returning the updated store, the new
`previous_layer` index and `current_level`.  A record whose kind is
neither 0 (image) nor 1 (folder) creates no layer and leaves the builder
state unchanged. -/
def ase_file_read_layer_chunk (sp : Sprite) (previous_layer : Nat)
    (current_level : Int) (s : AseStream) : Sprite × Nat × Int × AseStream :=
  let (flags, s) := fgetw s
  let (layer_type, s) := fgetw s
  let (child_level, s) := fgetw s
  let (_, s) := fgetw s         -- default width
  let (_, s) := fgetw s         -- default height
  let (_, s) := fgetw s         -- blend mode
  let s := ase_file_read_padding s 4
  let (name, s) := ase_file_read_string s
  if layer_type = 0 ∨ layer_type = 1 then
    let parent :=
      if (child_level : Int) = current_level then
        sp.layerParent previous_layer
      else if current_level < (child_level : Int) then
        previous_layer
      else
        sp.layerParent (sp.layerParent previous_layer)
    let newIndex := sp.layers.length
    let sp := { sp with layers :=
      sp.layers ++ [⟨layer_type = 0, flags, name, parent, []⟩] }
    (sp, newIndex, (child_level : Int), s)
  else
    (sp, previous_layer, current_level, s)

/-- Walk `k` parent links up from layer `i`. -/
def Sprite.ancestorAt (sp : Sprite) : Nat → Nat → Nat
  | i, 0 => i
  | i, k + 1 => sp.layerParent (sp.ancestorAt i k)

/-- The attachment point the spec prescribes for a nesting-level decrease:
walk `previousLevel − L` parent links up from the previous layer to an
ancestor and attach the new layer as that ancestor's sibling, i.e. as a
child of the ancestor's parent.  (For comparison with the source's fixed
two-`getParent` walk.) -/
def specDecreaseParent (sp : Sprite) (previous_layer : Nat)
    (current_level : Int) (child_level : Nat) : Nat :=
  sp.layerParent (sp.ancestorAt previous_layer
    (current_level - (child_level : Int)).toNat)

/-! ### Load driver state -/

/-- The mutable context of `AseFormat::onLoad`: the sprite being built,
the layer-tree builder's `last_layer`/`current_level`, the `FileOp`'s
accumulated warnings (`fop_error`) and reported progress positions
(`fop_progress` reports `position / header.size`; the positions are
recorded and the division is applied when stating properties).

`fwd` is observational instrumentation, not source state: it stays `true`
as long as every `fseek` the driver performed moved the cursor forward
(or kept it), which is the regime in which the progress reports can be
shown monotone. -/
structure LoadState where
  sprite : Sprite
  lastLayer : Nat
  currentLevel : Int
  errors : List String
  progress : List Nat
  fwd : Bool
deriving DecidableEq

/-- `fop_progress`: record the position at which a fraction was reported. -/
def LoadState.report (st : LoadState) (p : Nat) : LoadState :=
  { st with progress := st.progress ++ [p] }

/-- `fop_error`: append a warning. -/
def LoadState.warn (st : LoadState) (m : String) : LoadState :=
  { st with errors := st.errors ++ [m] }

/-- Modelled from the spec: `Stock::addImage` — append the image to the
pool and return its fresh opaque handle. -/
def LoadState.addImage (st : LoadState) (img : Image) : Nat × LoadState :=
  (st.sprite.stock.length,
   { st with sprite := { st.sprite with stock := st.sprite.stock ++ [img] } })

/-- Modelled from the spec: `LayerImage::addCel` — append the cel to the
layer's cel list. -/
def LoadState.addCel (st : LoadState) (li : Nat) (cel : Cel) : LoadState :=
  let l := st.sprite.layers.getD li default
  { st with sprite := { st.sprite with
      layers := st.sprite.layers.set li { l with cels := l.cels ++ [cel] } } }

/-! ### Pixel input (`PixelIO<...>::read_pixel` / `read_scanline`) -/

/-- `PixelIO<...>::read_pixel`: one pixel from the stream, by format. -/
def readPixel (fmt : PixelFormat) (s : AseStream) : Nat × AseStream :=
  match fmt with
  | .rgb =>
    let (r, s) := fgetc s
    let (g, s) := fgetc s
    let (b, s) := fgetc s
    let (a, s) := fgetc s
    (rgba r g b a, s)
  | .grayscale =>
    let (k, s) := fgetc s
    let (a, s) := fgetc s
    (graya k a, s)
  | .indexed => fgetc s

/-- Decode `n` pixels from a flat byte buffer, by format — the combined
effect of the per-row `PixelIO<...>::read_scanline` calls (rows are laid
out contiguously in the buffer). -/
def decodeBytes (fmt : PixelFormat) : Nat → List Nat → List Nat
  | 0, _ => []
  | n + 1, bytes =>
    match fmt with
    | .rgb =>
      rgba (bytes.getD 0 0) (bytes.getD 1 0) (bytes.getD 2 0) (bytes.getD 3 0) ::
        decodeBytes .rgb n (bytes.drop 4)
    | .grayscale =>
      graya (bytes.getD 0 0) (bytes.getD 1 0) ::
        decodeBytes .grayscale n (bytes.drop 2)
    | .indexed =>
      bytes.getD 0 0 % 256 :: decodeBytes .indexed n (bytes.drop 1)

/-! ### Raw cel pixels (`read_raw_image`) -/

/-- One row of `read_raw_image`'s inner loop: `w` pixels. -/
def read_raw_row (fmt : PixelFormat) :
    Nat → AseStream → List Nat × AseStream
  | 0, s => ([], s)
  | w + 1, s =>
    let (p, s) := readPixel fmt s
    let (ps, s) := read_raw_row fmt w s
    (p :: ps, s)

/-- `read_raw_image`'s row loop: after each row a progress report is made
at the current cursor position. -/
def read_raw_rows (fmt : PixelFormat) (w : Nat) :
    Nat → LoadState → AseStream → List Nat × LoadState × AseStream
  | 0, st, s => ([], st, s)
  | h + 1, st, s =>
    let (row, s) := read_raw_row fmt w s
    let st := st.report s.pos
    let (rest, st, s) := read_raw_rows fmt w h st s
    (row ++ rest, st, s)

/-- `read_raw_image`: fill the image row-major from format-encoded pixels,
reporting progress after every row. -/
def read_raw_image (fmt : PixelFormat) (img : Image) (st : LoadState)
    (s : AseStream) : Image × LoadState × AseStream :=
  let (px, st, s) := read_raw_rows fmt img.w img.h st s
  ({ img with pixels := px }, st, s)

/-! ### Compressed cel pixels (`read_compressed_image`) -/

/-- The input-block loop of `read_compressed_image`: read the compressed
payload in blocks of at most 4096 bytes, clipping the final block to the
chunk's declared end and stopping when no bytes remain before it; after
each block a progress report is made at the cursor.  The `fuel` argument
only bounds the recursion; with fuel `(chunk_end − pos) / 4096 + 1` the
loop runs to completion exactly as in the source. -/
def read_compressed_blocks (chunk_end : Nat) :
    Nat → LoadState → AseStream → LoadState × AseStream
  | 0, st, s => (st, s)
  | fuel + 1, st, s =>
    let input_bytes :=
      if chunk_end < s.pos + 4096 then chunk_end - s.pos else 4096
    if input_bytes = 0 then (st, s)
    else
      let s := fseekSet s (s.pos + input_bytes)
      let st := st.report s.pos
      read_compressed_blocks chunk_end fuel st s

/-- Modelled from the spec (section 4.6): the zlib inflate session is an
external library, abstracted as a function `zinf` from the compressed
byte slice to either the decoded bytes or `none` (a compression-stream
error).  The cursor and progress behaviour — 4096-byte input blocks
clipped to the chunk's declared end, one report per block — follows the
source; decoded bytes land in a zero-initialized `height × rowSize`
buffer from which the rows are then decoded, and on a stream error the
image keeps the zeroed pixels it was created with while the flag `false`
is returned (the caller reports the error and carries on). -/
def read_compressed_image (zinf : List Nat → Option (List Nat))
    (fmt : PixelFormat) (img : Image) (chunk_end : Nat) (st : LoadState)
    (s : AseStream) : Image × Bool × LoadState × AseStream :=
  let start := s.pos
  let fuel := (chunk_end - s.pos) / 4096 + 1
  let (st, s) := read_compressed_blocks chunk_end fuel st s
  match zinf ((s.data.drop start).take (chunk_end - start)) with
  | some bytes =>
    let rowSize := fmt.bpp * img.w
    let uncompressed := bytes.take (img.h * rowSize) ++
      List.replicate (img.h * rowSize - bytes.length) 0
    ({ img with pixels := decodeBytes fmt (img.w * img.h) uncompressed },
     true, st, s)
  | none => (img, false, st, s)

/-! ### Cel chunk (`ase_file_read_cel_chunk`) -/

/-- The `switch (cel_type)` part of `ase_file_read_cel_chunk`, run once
the layer reference has been resolved to the image layer `li` and the
cel object has been constructed with its position and opacity. -/
def ase_file_read_cel_payload (zinf : List Nat → Option (List Nat))
    (pixelFormat : PixelFormat) (chunk_end : Nat) (st : LoadState)
    (s : AseStream) (li : Nat) (cel : Cel) (cel_type : Nat) :
    Option Cel × LoadState × AseStream :=
  if cel_type = ASE_FILE_RAW_CEL then
    let (w, s) := fgetw s
    let (h, s) := fgetw s
    if 0 < w ∧ 0 < h then
      let (img, st, s) :=
        read_raw_image pixelFormat (Image.create pixelFormat w h) st s
      let (handle, st) := st.addImage img
      let cel := { cel with image := handle }
      (some cel, st.addCel li cel, s)
    else
      (some cel, st.addCel li cel, s)
  else if cel_type = ASE_FILE_LINK_CEL then
    let (link_frame, s) := fgetw s
    match st.sprite.getCel li link_frame with
    | some link =>
      let img := Image.createCopy (st.sprite.stock.getD link.image default)
      let (handle, st) := st.addImage img
      let cel := { cel with image := handle }
      (some cel, st.addCel li cel, s)
    | none => (none, st, s)
  else if cel_type = ASE_FILE_COMPRESSED_CEL then
    let (w, s) := fgetw s
    let (h, s) := fgetw s
    if 0 < w ∧ 0 < h then
      let (img, ok, st, s) := read_compressed_image zinf pixelFormat
        (Image.create pixelFormat w h) chunk_end st s
      let st := if ok then st else st.warn "ZLib error in inflate()."
      let (handle, st) := st.addImage img
      let cel := { cel with image := handle }
      (some cel, st.addCel li cel, s)
    else
      (some cel, st.addCel li cel, s)
  else
    (some cel, st.addCel li cel, s)

/-- `ase_file_read_cel_chunk`: decode one cel record.  If the layer index
does not resolve, or resolves to a non-image layer, a warning is issued
and no cel is created; otherwise the cel is constructed from the record
fields and filled by `ase_file_read_cel_payload`. -/
def ase_file_read_cel_chunk (zinf : List Nat → Option (List Nat))
    (frame : Nat) (pixelFormat : PixelFormat) (chunk_end : Nat)
    (st : LoadState) (s : AseStream) : Option Cel × LoadState × AseStream :=
  let (layer_index, s) := fgetw s
  let (xw, s) := fgetw s
  let (yw, s) := fgetw s
  let (opacity, s) := fgetc s
  let (cel_type, s) := fgetw s
  let s := ase_file_read_padding s 7
  match st.sprite.indexToLayer layer_index with
  | none => (none, st.warn "Frame didn't found layer with index", s)
  | some li =>
    if (st.sprite.layers.getD li default).isImage = false then
      (none,
       st.warn "Invalid .ase file (frame in layer which does not contain images",
       s)
    else
      ase_file_read_cel_payload zinf pixelFormat chunk_end st s li
        ⟨frame, toSigned16 xw, toSigned16 yw, opacity, 0⟩ cel_type

/-! ### Mask chunk (`ase_file_read_mask_chunk`) -/

/-- A `Mask`: bounds, name, and the decoded bitmap bits (row-major, one
row being `⌈w/8⌉` bytes, most significant bit first). -/
structure Mask where
  x : Nat
  y : Nat
  w : Nat
  h : Nat
  name : List Nat
  bits : List Bool
deriving DecidableEq

/-- The eight bits of a byte, most significant first. -/
def byteBits (b : Nat) : List Bool :=
  (List.range 8).map (fun c => b / 2 ^ (7 - c) % 2 = 1)

/-- The packed-bitmap loop of `ase_file_read_mask_chunk`: `n` bytes, each
expanded to its 8 bits. -/
def ase_file_read_mask_bytes : Nat → AseStream → List Bool × AseStream
  | 0, s => ([], s)
  | n + 1, s =>
    let (b, s) := fgetc s
    let (bs, s) := ase_file_read_mask_bytes n s
    (byteBits b ++ bs, s)

/-- `ase_file_read_mask_chunk`: bounds, 8 padding bytes, name, then
`h × ⌈w/8⌉` packed bitmap bytes. -/
def ase_file_read_mask_chunk (s : AseStream) : Mask × AseStream :=
  let (x, s) := fgetw s
  let (y, s) := fgetw s
  let (w, s) := fgetw s
  let (h, s) := fgetw s
  let s := ase_file_read_padding s 8
  let (name, s) := ase_file_read_string s
  let (bits, s) := ase_file_read_mask_bytes (h * ((w + 7) / 8)) s
  (⟨x, y, w, h, name, bits⟩, s)

/-! ### The document-level driver (`AseFormat::onLoad`) -/

/-- The `switch (chunk_type)` dispatch in `AseFormat::onLoad`'s chunk
loop.  Color chunks are decoded only for indexed sprites (otherwise a
warning); the layer chunk updates the tree-builder state; the cel chunk
gets the declared chunk end; the mask chunk is decoded and discarded;
the path chunk is a no-op; every other type only warns. -/
def ase_dispatch_chunk (zinf : List Nat → Option (List Nat)) (frame : Nat)
    (chunk_type : Nat) (chunk_end : Nat) (st : LoadState) (s : AseStream) :
    LoadState × AseStream :=
  if chunk_type = ASE_FILE_CHUNK_FLI_COLOR ∨
      chunk_type = ASE_FILE_CHUNK_FLI_COLOR2 then
    if st.sprite.pixelFormat = .indexed then
      let prev_pal := st.sprite.getPalette frame
      let (pal, s) :=
        if chunk_type = ASE_FILE_CHUNK_FLI_COLOR then
          ase_file_read_color_chunk st.sprite frame s
        else
          ase_file_read_color2_chunk st.sprite frame s
      let st :=
        if 0 < countDiff prev_pal pal then
          { st with sprite := st.sprite.setPalette pal }
        else st
      (st, s)
    else
      (st.warn "Warning: was found a color chunk in non-8bpp file", s)
  else if chunk_type = ASE_FILE_CHUNK_LAYER then
    let (sp, ll, cl, s) :=
      ase_file_read_layer_chunk st.sprite st.lastLayer st.currentLevel s
    ({ st with sprite := sp, lastLayer := ll, currentLevel := cl }, s)
  else if chunk_type = ASE_FILE_CHUNK_CEL then
    let (_, st, s) := ase_file_read_cel_chunk zinf frame
      st.sprite.pixelFormat chunk_end st s
    (st, s)
  else if chunk_type = ASE_FILE_CHUNK_MASK then
    let (_, s) := ase_file_read_mask_chunk s
    (st, s)
  else if chunk_type = ASE_FILE_CHUNK_PATH then
    (st, s)
  else
    (st.warn "Warning: Unsupported chunk type (skipping)", s)

/-- One iteration of the chunk loop: report progress at the chunk start,
read the 6-byte chunk header, dispatch the handler, and then seek
unconditionally to `chunk_pos + chunk_size` (the `fwd` flag records
whether that seek moved forward). -/
def ase_read_chunk (zinf : List Nat → Option (List Nat)) (frame : Nat)
    (st : LoadState) (s : AseStream) : LoadState × AseStream :=
  let chunk_pos := s.pos
  let st := st.report chunk_pos
  let (chunk_size, s) := fgetl s
  let (chunk_type, s) := fgetw s
  let (st, s) := ase_dispatch_chunk zinf frame chunk_type
    (chunk_pos + chunk_size) st s
  let st := { st with fwd := st.fwd && decide (s.pos ≤ chunk_pos + chunk_size) }
  (st, fseekSet s (chunk_pos + chunk_size))

/-- The chunk loop (`for (c=0; c<frame_header.chunks; c++)`). -/
def ase_read_chunks (zinf : List Nat → Option (List Nat)) (frame : Nat) :
    Nat → LoadState → AseStream → LoadState × AseStream
  | 0, st, s => (st, s)
  | c + 1, st, s =>
    let (st, s) := ase_read_chunk zinf frame st s
    ase_read_chunks zinf frame c st s

/-- One iteration of the frame loop: report progress at the frame start,
read the frame header, and — only when the frame magic matches — apply a
positive duration field and run the chunk loop; finally seek
unconditionally to `frame_pos + frame_header.size`. -/
def ase_read_frame (zinf : List Nat → Option (List Nat)) (frame : Nat)
    (st : LoadState) (s : AseStream) : LoadState × AseStream :=
  let frame_pos := s.pos
  let st := st.report frame_pos
  let (fh, s) := ase_file_read_frame_header s
  let (st, s) :=
    if fh.magic = ASE_FILE_FRAME_MAGIC then
      let st :=
        if 0 < fh.duration then
          { st with sprite := st.sprite.setFrameDuration frame fh.duration }
        else st
      ase_read_chunks zinf frame fh.chunks st s
    else (st, s)
  let st := { st with fwd := st.fwd && decide (s.pos ≤ frame_pos + fh.size) }
  (st, fseekSet s (frame_pos + fh.size))

/-- The `FileOp` inputs the load driver consults: the one-frame flag and
the cancellation predicate polled at each frame boundary
(`fop_is_stop`); the latter is external mutable state, modelled as a
function of the frame just finished. -/
structure FileOpCfg where
  oneframe : Bool
  stop : Nat → Bool

/-- The frame loop, with its two early exits (`fop->oneframe` and
`fop_is_stop`) checked after each frame. -/
def ase_read_frames (zinf : List Nat → Option (List Nat)) (cfg : FileOpCfg) :
    List Nat → LoadState → AseStream → LoadState × AseStream
  | [], st, s => (st, s)
  | frame :: rest, st, s =>
    let (st, s) := ase_read_frame zinf frame st s
    if cfg.oneframe then (st, s)
    else if cfg.stop frame then (st, s)
    else ase_read_frames zinf cfg rest st s

/-- `AseFormat::onLoad`: read the document header (a mismatched magic
aborts the load with nothing built), construct the sprite from it, set
the frame count, the legacy per-frame speed and the transparent index,
and run the frame loop.  The physical-I/O `ferror` path of the source has
no counterpart on a pure stream. -/
def AseFormat.onLoad (zinf : List Nat → Option (List Nat)) (cfg : FileOpCfg)
    (s : AseStream) : Option (LoadState × AseStream) :=
  match ase_file_read_header s with
  | none => none
  | some (header, s) =>
    let sprite := Sprite.new
      (if header.depth = 32 then .rgb
       else if header.depth = 16 then .grayscale else .indexed)
      header.width header.height header.ncolors
    let sprite := (sprite.setTotalFrames header.frames).setDurationForAllFrames
      header.speed
    let sprite := { sprite with transparentColor := header.transparent_index }
    let st : LoadState :=
      ⟨sprite, 0, -1, [], [], true⟩
    let (st, s) := ase_read_frames zinf cfg (List.range sprite.totalFrames) st s
    some (st, s)

/-! ### The save side (`AseFormat::onSave` and the chunk writers)

Only what claims about saving need, but with the source's structure: a
writable stream with back-patching seeks, the open/close chunk framing
(with the global `current_frame_header`/`chunk_type`/`chunk_start`
variables gathered in a write-session state), and the palette, layer and
cel chunk writers. -/

/-- A writable stream: models `FILE*` opened for writing, where a write at
the cursor overwrites the byte there, and a write past the current end
first extends the data with zeros up to the cursor. -/
structure WStream where
  data : List Nat
  pos : Nat
deriving DecidableEq

/-- `fputc`: write one byte (reduced mod 256) at the cursor. -/
def wputc (w : WStream) (b : Nat) : WStream :=
  if w.pos < w.data.length then ⟨w.data.set w.pos (b % 256), w.pos + 1⟩
  else ⟨w.data ++ List.replicate (w.pos - w.data.length) 0 ++ [b % 256], w.pos + 1⟩

/-- Modelled from the spec: `fputw`, the little-endian 16-bit write. -/
def wputw (w : WStream) (v : Nat) : WStream :=
  wputc (wputc w (v % 256)) (v / 256)

/-- Modelled from the spec: `fputl`, the little-endian 32-bit write. -/
def wputl (w : WStream) (v : Nat) : WStream :=
  wputc (wputc (wputc (wputc w (v % 256)) (v / 256)) (v / 65536)) (v / 16777216)

/-- `fseek(f, p, SEEK_SET)` on the write stream. -/
def wseek (w : WStream) (p : Nat) : WStream := ⟨w.data, p⟩

/-- `ase_file_write_padding`. -/
def ase_file_write_padding (w : WStream) : Nat → WStream
  | 0 => w
  | n + 1 => ase_file_write_padding (wputc w 0) n

/-- Write a list of raw bytes (the body loops of the writers). -/
def wputBytes (w : WStream) : List Nat → WStream
  | [] => w
  | b :: bs => wputBytes (wputc w b) bs

/-- `ase_file_write_string`: 16-bit byte length, then the raw bytes. -/
def ase_file_write_string (w : WStream) (name : List Nat) : WStream :=
  wputBytes (wputw w name.length) name

/-- The bits of `(int)cel->getX()` put through `fputw`. -/
def toUnsigned16 (v : Int) : Nat := (v % 65536).toNat

/-- The write-session state: the stream, the global
`current_frame_header->chunks` counter and the `chunk_type`/`chunk_start`
globals of the chunk framing, plus observational instrumentation — the
type codes of the chunks opened so far (in order) and the reported
progress fractions' numerators. -/
structure WState where
  w : WStream
  frameChunks : Nat
  chunk_type : Nat
  chunk_start : Nat
  types : List Nat
  progress : List Nat
deriving DecidableEq

/-- `ase_file_write_start_chunk`: bump the frame's chunk counter, remember
the chunk type and start position, and reserve the 6-byte header by
seeking past it. -/
def ase_file_write_start_chunk (st : WState) (type : Nat) : WState :=
  { st with
    frameChunks := st.frameChunks + 1,
    chunk_type := type,
    chunk_start := st.w.pos,
    types := st.types ++ [type],
    w := wseek st.w (st.w.pos + 6) }

/-- `ase_file_write_close_chunk`: compute the chunk size from the current
position, seek back to the start, back-patch `(length, type)`, and seek
forward again. -/
def ase_file_write_close_chunk (st : WState) : WState :=
  let chunk_end := st.w.pos
  let chunk_size := chunk_end - st.chunk_start
  let w := wseek st.w st.chunk_start
  let w := wputl w chunk_size
  let w := wputw w st.chunk_type
  { st with w := wseek w chunk_end }

/-- `ase_file_write_color2_chunk`: one direct-value palette chunk holding
a single packet — skip byte 0, size byte 0 when the palette has 256
entries, then the whole palette's RGB triples. -/
def ase_file_write_color2_chunk (st : WState) (pal : Palette) : WState :=
  let st := ase_file_write_start_chunk st ASE_FILE_CHUNK_FLI_COLOR2
  let w := wputw st.w 1
  let w := wputc w 0
  let w := wputc w (if pal.entries.length = 256 then 0 else pal.entries.length)
  let w := pal.entries.foldl
    (fun w c => wputc (wputc (wputc w (rgbaGetr c)) (rgbaGetg c)) (rgbaGetb c)) w
  ase_file_write_close_chunk { st with w := w }

/-- The save-side layer tree: the polymorphic `Layer` seen through the
writers (an image layer with its cels, or a folder with its ordered
children). -/
inductive SLayer
  | image (flags : Nat) (blendMode : Nat) (name : List Nat) (cels : List Cel)
  | folder (flags : Nat) (name : List Nat) (children : List SLayer)

/-- The save-side sprite accessor surface (spec sections 3 and 6): the
root folder's children plus the metadata `onSave` reads. -/
structure SSprite where
  pixelFormat : PixelFormat
  width : Nat
  height : Nat
  transparentColor : Nat
  totalFrames : Nat
  durations : List Nat
  palettes : List Palette
  rootLayers : List SLayer
  stock : List Image

/-- `ase_file_write_layer_chunk`.  `child_level` is computed in the source
by walking the layer's parent links up to the root; here the traversal
depth (root children at level 0) is passed in by `ase_file_write_layers`. -/
def ase_file_write_layer_chunk (st : WState) (child_level : Nat)
    (l : SLayer) : WState :=
  let st := ase_file_write_start_chunk st ASE_FILE_CHUNK_LAYER
  match l with
  | .image flags blendMode name _ =>
    let w := wputw st.w flags
    let w := wputw w 0                  -- layer type: image
    let w := wputw w child_level
    let w := wputw w 0
    let w := wputw w 0
    let w := wputw w blendMode
    let w := ase_file_write_padding w 4
    let w := ase_file_write_string w name
    ase_file_write_close_chunk { st with w := w }
  | .folder flags name _ =>
    let w := wputw st.w flags
    let w := wputw w 1                  -- layer type: folder
    let w := wputw w child_level
    let w := wputw w 0
    let w := wputw w 0
    let w := wputw w 0                  -- blend mode: 0 for folders
    let w := ase_file_write_padding w 4
    let w := ase_file_write_string w name
    ase_file_write_close_chunk { st with w := w }

mutual

/-- `ase_file_write_layers`: write the layer's chunk, then recurse into a
folder's children. -/
def ase_file_write_layers (st : WState) (depth : Nat) : SLayer → WState
  | .image flags blendMode name cels =>
    ase_file_write_layer_chunk st depth (.image flags blendMode name cels)
  | .folder flags name children =>
    let st := ase_file_write_layer_chunk st depth (.folder flags name children)
    ase_file_write_layers_list st (depth + 1) children

/-- The child iteration of `ase_file_write_layers`. -/
def ase_file_write_layers_list (st : WState) (depth : Nat) :
    List SLayer → WState
  | [] => st
  | l :: rest =>
    ase_file_write_layers_list (ase_file_write_layers st depth l) depth rest

end

/-- The per-pixel wire encoding (`PixelIO<...>::write_pixel`). -/
def encodePixel (fmt : PixelFormat) (c : Nat) : List Nat :=
  match fmt with
  | .rgb => [rgbaGetr c, rgbaGetg c, rgbaGetb c, rgbaGeta c]
  | .grayscale => [c % 256, c / 256 % 256]
  | .indexed => [c % 256]

/-- Modelled from the spec (section 4.6): `write_compressed_image` — the
rows are encoded to bytes and streamed through the external deflate
session, abstracted as `zdef`; all produced output is written out. -/
def write_compressed_image (zdef : List Nat → List Nat) (w : WStream)
    (img : Image) : WStream :=
  wputBytes w (zdef (img.pixels.flatMap (encodePixel img.pixelFormat)))

/-- `ase_file_write_cel_chunk`: the cel record followed by its payload;
the writer always emits the Compressed kind. -/
def ase_file_write_cel_chunk (zdef : List Nat → List Nat) (sprite : SSprite)
    (st : WState) (layer_index : Nat) (cel : Cel) : WState :=
  let st := ase_file_write_start_chunk st ASE_FILE_CHUNK_CEL
  let w := wputw st.w layer_index
  let w := wputw w (toUnsigned16 cel.x)
  let w := wputw w (toUnsigned16 cel.y)
  let w := wputc w cel.opacity
  let w := wputw w ASE_FILE_COMPRESSED_CEL
  let w := ase_file_write_padding w 7
  let w :=
    match sprite.stock.get? cel.image with
    | some image =>
      let w := wputw w image.w
      let w := wputw w image.h
      write_compressed_image zdef w image
    | none =>
      wputw (wputw w 0) 0
  ase_file_write_close_chunk { st with w := w }

mutual

/-- `ase_file_write_cels`: for an image layer, write the chunk of its cel
at `frame` (if any); recurse into folders.  `layer_index` threads the
flat layer numbering `Sprite::layerToIndex` computes; the updated counter
is returned. -/
def ase_file_write_cels (zdef : List Nat → List Nat) (sprite : SSprite)
    (frame : Nat) (st : WState) (layer_index : Nat) : SLayer → WState × Nat
  | .image _ _ _ cels =>
    let st :=
      match (cels.filter (fun c => c.frame = frame)).head? with
      | some cel => ase_file_write_cel_chunk zdef sprite st layer_index cel
      | none => st
    (st, layer_index + 1)
  | .folder _ _ children =>
    ase_file_write_cels_list zdef sprite frame st (layer_index + 1) children

/-- The child iteration of `ase_file_write_cels`. -/
def ase_file_write_cels_list (zdef : List Nat → List Nat) (sprite : SSprite)
    (frame : Nat) (st : WState) (layer_index : Nat) :
    List SLayer → WState × Nat
  | [] => (st, layer_index)
  | l :: rest =>
    let (st, layer_index) :=
      ase_file_write_cels zdef sprite frame st layer_index l
    ase_file_write_cels_list zdef sprite frame st layer_index rest

end

/-- The body of `AseFormat::onSave`'s frame loop: prepare the frame
header (remember its position, zero the chunk counter, reserve 16 bytes),
write the palette chunk when the sprite is indexed and the palette is new
at this frame (or it is frame 0), write the layer chunks on frame 0,
write the frame's cel chunks, and back-patch the frame header. -/
def ase_save_frame (zdef : List Nat → List Nat) (sprite : SSprite)
    (frame : Nat) (st : WState) : WState :=
  let frame_hdr_pos := st.w.pos
  let st := { st with frameChunks := 0, w := wseek st.w (st.w.pos + 16) }
  let frame_duration := sprite.durations.getD frame 0
  let st :=
    if sprite.pixelFormat = .indexed ∧
        (frame = 0 ∨
         0 < countDiff (getPaletteFrom sprite.palettes (frame - 1))
           (getPaletteFrom sprite.palettes frame)) then
      ase_file_write_color2_chunk st (getPaletteFrom sprite.palettes frame)
    else st
  let st :=
    if frame = 0 then ase_file_write_layers_list st 0 sprite.rootLayers
    else st
  let st :=
    (ase_file_write_cels_list zdef sprite frame st 0 sprite.rootLayers).1
  -- ase_file_write_frame_header: back-patch (size, magic, chunks, duration).
  let frame_end := st.w.pos
  let w := wseek st.w frame_hdr_pos
  let w := wputl w (frame_end - frame_hdr_pos)
  let w := wputw w ASE_FILE_FRAME_MAGIC
  let w := wputw w st.frameChunks
  let w := wputw w frame_duration
  let w := ase_file_write_padding w 6
  { st with w := wseek w frame_end }

/-- `ase_file_prepare_header` followed (after the frames) by
`ase_file_write_header`: the header fields derived from the sprite, the
128 reserved bytes skipped up front, and the total size back-patched at
the end.  Returned by `AseFormat.onSave` below. -/
def ase_file_write_header_at (sprite : SSprite) (header_pos : Nat)
    (w : WStream) : WStream :=
  let size := w.pos - header_pos
  let w0 := wseek w header_pos
  let w0 := wputl w0 size
  let w0 := wputw w0 ASE_FILE_MAGIC
  let w0 := wputw w0 sprite.totalFrames
  let w0 := wputw w0 sprite.width
  let w0 := wputw w0 sprite.height
  let w0 := wputw w0
    (match sprite.pixelFormat with
     | .rgb => 32
     | .grayscale => 16
     | .indexed => 8)
  let w0 := wputl w0 0
  let w0 := wputw w0 (sprite.durations.getD 0 0)
  let w0 := wputl w0 0
  let w0 := wputl w0 0
  let w0 := wputc w0 sprite.transparentColor
  let w0 := wputc w0 0
  let w0 := wputc w0 0
  let w0 := wputc w0 0
  let w0 := wputw w0 (getPaletteFrom sprite.palettes 0).entries.length
  wseek w0 (header_pos + size)

/-- `AseFormat::onSave`: reserve the 128-byte header, write every frame
(palette chunk when new, layer chunks on frame 0, cel chunks, frame
header back-patch, progress), then back-patch the document header. -/
def AseFormat.onSave (zdef : List Nat → List Nat) (sprite : SSprite)
    (w : WStream) : WState :=
  let header_pos := w.pos
  let st : WState := ⟨wseek w (w.pos + 128), 0, 0, 0, [], []⟩
  let st := (List.range sprite.totalFrames).foldl
    (fun st frame =>
      let st := ase_save_frame zdef sprite frame st
      if 1 < sprite.totalFrames then
        { st with progress := st.progress ++ [frame + 1] }
      else st)
    st
  { st with w := ase_file_write_header_at sprite header_pos st.w }

/-! ### Helper lemmas for the palette chunk codec -/

/-- Alpha of a fully-opaque packed entry. -/
lemma rgbaGeta_rgba (r g b : Nat) : rgbaGeta (rgba r g b 255) = 255 := by
  simp [rgba, rgbaGeta]
  omega

lemma getD_set_self (l : List Nat) (i v : Nat) (h : i < l.length) :
    (l.set i v).getD i 0 = v := by
  simp [List.getD, List.getElem?_set_eq_of_lt v h]

lemma getD_set_other (l : List Nat) (i j v : Nat) (h : i ≠ j) :
    (l.set i v).getD j 0 = l.getD j 0 := by
  simp [List.getD, List.getElem?_set_ne h]

/-- The entry a palette-run read writes at index `i - first`. -/
def runEntry (scaled : Bool) (d : List Nat) (p : Nat) : Nat :=
  if scaled then
    rgba (rgbScale6 (byteAt d p)) (rgbScale6 (byteAt d (p + 1)))
      (rgbScale6 (byteAt d (p + 2))) 255
  else
    rgba (byteAt d p) (byteAt d (p + 1)) (byteAt d (p + 2)) 255

lemma palette_run_unfold (scaled : Bool) (first n : Nat) (pal : Palette)
    (s : AseStream) :
    ase_palette_read_run scaled first (n + 1) pal s =
      ase_palette_read_run scaled (first + 1) n
        (pal.setEntry first (runEntry scaled s.data s.pos))
        ⟨s.data, s.pos + 3⟩ := by
  cases scaled <;> rfl

lemma palette_run_length (scaled : Bool) :
    ∀ (size first : Nat) (pal : Palette) (s : AseStream),
    (ase_palette_read_run scaled first size pal s).1.entries.length =
      pal.entries.length := by
  intro size
  induction size with
  | zero => intro first pal s; rfl
  | succ n ih =>
    intro first pal s
    rw [palette_run_unfold, ih]
    simp [Palette.setEntry]

lemma palette_run_getD (scaled : Bool) :
    ∀ (size first : Nat) (pal : Palette) (s : AseStream) (i : Nat),
    ((ase_palette_read_run scaled first size pal s).1.entries.getD i 0) =
      if first ≤ i ∧ i < first + size ∧ i < pal.entries.length then
        runEntry scaled s.data (s.pos + 3 * (i - first))
      else pal.entries.getD i 0 := by
  intro size
  induction size with
  | zero =>
    intro first pal s i
    simp only [ase_palette_read_run]
    rw [if_neg (by omega)]
  | succ n ih =>
    intro first pal s i
    rw [palette_run_unfold, ih]
    have hlen : (pal.setEntry first (runEntry scaled s.data s.pos)).entries.length
        = pal.entries.length := by simp [Palette.setEntry]
    rw [hlen]
    by_cases hi : i = first
    · subst hi
      rw [if_neg (by omega)]
      by_cases hl : i < pal.entries.length
      · rw [if_pos ⟨le_refl i, by omega, hl⟩]
        have h0 : s.pos + 3 * (i - i) = s.pos := by omega
        rw [h0]
        exact getD_set_self _ _ _ (by simpa [Palette.setEntry] using hl)
      · rw [if_neg (by omega)]
        simp only [Palette.setEntry]
        rw [List.set_eq_of_length_le (by omega)]
    · by_cases hcond : first + 1 ≤ i ∧ i < first + 1 + n ∧ i < pal.entries.length
      · rw [if_pos hcond, if_pos (by omega)]
        have h0 : s.pos + 3 + 3 * (i - (first + 1)) = s.pos + 3 * (i - first) := by
          omega
        rw [h0]
      · rw [if_neg hcond, if_neg (by omega)]
        simp only [Palette.setEntry]
        exact getD_set_other _ _ _ _ (fun h => hi h.symm)

lemma runEntry_alpha (scaled : Bool) (d : List Nat) (p : Nat) :
    rgbaGeta (runEntry scaled d p) = 255 := by
  cases scaled <;> simp [runEntry, rgbaGeta_rgba]

lemma palette_packets_unfold (scaled : Bool) (n skip : Nat) (pal : Palette)
    (s : AseStream) :
    ase_palette_read_packets scaled (n + 1) skip pal s =
      ase_palette_read_packets scaled n (skip + byteAt s.data s.pos)
        (ase_palette_read_run scaled (skip + byteAt s.data s.pos)
          (if byteAt s.data (s.pos + 1) = 0 then 256
           else byteAt s.data (s.pos + 1)) pal ⟨s.data, s.pos + 2⟩).1
        (ase_palette_read_run scaled (skip + byteAt s.data s.pos)
          (if byteAt s.data (s.pos + 1) = 0 then 256
           else byteAt s.data (s.pos + 1)) pal ⟨s.data, s.pos + 2⟩).2 := rfl

lemma palette_run_alpha (scaled : Bool) (size first : Nat) (pal : Palette)
    (s : AseStream) (i : Nat) :
    (ase_palette_read_run scaled first size pal s).1.entries.getD i 0 =
      pal.entries.getD i 0 ∨
    rgbaGeta ((ase_palette_read_run scaled first size pal s).1.entries.getD i 0)
      = 255 := by
  rw [palette_run_getD]
  split
  · right; exact runEntry_alpha scaled _ _
  · left; rfl

lemma palette_packets_alpha (scaled : Bool) :
    ∀ (n skip : Nat) (pal : Palette) (s : AseStream) (i : Nat),
    (ase_palette_read_packets scaled n skip pal s).1.entries.getD i 0 =
      pal.entries.getD i 0 ∨
    rgbaGeta ((ase_palette_read_packets scaled n skip pal s).1.entries.getD i 0)
      = 255 := by
  intro n
  induction n with
  | zero => intro skip pal s i; left; rfl
  | succ m ih =>
    intro skip pal s i
    rw [palette_packets_unfold]
    rcases ih (skip + byteAt s.data s.pos)
        (ase_palette_read_run scaled (skip + byteAt s.data s.pos)
          (if byteAt s.data (s.pos + 1) = 0 then 256
           else byteAt s.data (s.pos + 1)) pal ⟨s.data, s.pos + 2⟩).1
        (ase_palette_read_run scaled (skip + byteAt s.data s.pos)
          (if byteAt s.data (s.pos + 1) = 0 then 256
           else byteAt s.data (s.pos + 1)) pal ⟨s.data, s.pos + 2⟩).2 i with
      h | h
    · rw [h]
      exact palette_run_alpha scaled _ _ pal _ i
    · right; exact h

lemma palette_packets_length (scaled : Bool) :
    ∀ (n skip : Nat) (pal : Palette) (s : AseStream),
    (ase_palette_read_packets scaled n skip pal s).1.entries.length =
      pal.entries.length := by
  intro n
  induction n with
  | zero => intro skip pal s; rfl
  | succ m ih =>
    intro skip pal s
    rw [palette_packets_unfold, ih, palette_run_length]

/-! ### Helper lemmas for list stores -/

lemma getD_append_length {α : Type} [Inhabited α] (l : List α) (x : α) :
    (l ++ [x]).getD l.length default = x := by
  simp [List.getD, List.getElem?_append_right (le_refl l.length)]

lemma getD_append_lt {α : Type} [Inhabited α] (l l2 : List α) (i : Nat)
    (h : i < l.length) :
    (l ++ l2).getD i default = l.getD i default := by
  simp [List.getD, List.getElem?_append_left h]

lemma getD_set_ne {α : Type} [Inhabited α] (l : List α) (i j : Nat) (v : α)
    (h : i ≠ j) : (l.set i v).getD j default = l.getD j default := by
  simp [List.getD, List.getElem?_set_ne h]

/-! ### Unfolding keys and sprite-preservation lemmas for the load driver -/

/-- The raw-cel pixel read performed by `ase_file_read_cel_payload` on a
stream positioned at the payload's width field. -/
def rawReadAt (fmt : PixelFormat) (st : LoadState) (s : AseStream) :
    Image × LoadState × AseStream :=
  read_raw_image fmt
    (Image.create fmt (fgetw s).1 (fgetw ⟨s.data, s.pos + 2⟩).1) st
    ⟨s.data, s.pos + 4⟩

/-- The compressed-cel pixel read performed by `ase_file_read_cel_payload`. -/
def compReadAt (zinf : List Nat → Option (List Nat)) (fmt : PixelFormat)
    (ce : Nat) (st : LoadState) (s : AseStream) :
    Image × Bool × LoadState × AseStream :=
  read_compressed_image zinf fmt
    (Image.create fmt (fgetw s).1 (fgetw ⟨s.data, s.pos + 2⟩).1) ce st
    ⟨s.data, s.pos + 4⟩

lemma payload_raw_key (zinf : List Nat → Option (List Nat))
    (fmt : PixelFormat) (ce : Nat) (st : LoadState) (s : AseStream)
    (li : Nat) (cel : Cel) :
    ase_file_read_cel_payload zinf fmt ce st s li cel ASE_FILE_RAW_CEL =
      if 0 < (fgetw s).1 ∧ 0 < (fgetw ⟨s.data, s.pos + 2⟩).1 then
        (some { cel with image :=
            ((rawReadAt fmt st s).2.1.addImage (rawReadAt fmt st s).1).1 },
         (((rawReadAt fmt st s).2.1.addImage (rawReadAt fmt st s).1).2).addCel
           li { cel with image :=
             ((rawReadAt fmt st s).2.1.addImage (rawReadAt fmt st s).1).1 },
         (rawReadAt fmt st s).2.2)
      else (some cel, st.addCel li cel, ⟨s.data, s.pos + 4⟩) := rfl

lemma payload_link_key (zinf : List Nat → Option (List Nat))
    (fmt : PixelFormat) (ce : Nat) (st : LoadState) (s : AseStream)
    (li : Nat) (cel : Cel) :
    ase_file_read_cel_payload zinf fmt ce st s li cel ASE_FILE_LINK_CEL =
      (match st.sprite.getCel li (fgetw s).1 with
       | some link =>
         (some { cel with image :=
             (st.addImage (Image.createCopy
               (st.sprite.stock.getD link.image default))).1 },
          ((st.addImage (Image.createCopy
            (st.sprite.stock.getD link.image default))).2).addCel li
            { cel with image :=
              (st.addImage (Image.createCopy
                (st.sprite.stock.getD link.image default))).1 },
          (⟨s.data, s.pos + 2⟩ : AseStream))
       | none => (none, st, (⟨s.data, s.pos + 2⟩ : AseStream))) := rfl

lemma payload_comp_key (zinf : List Nat → Option (List Nat))
    (fmt : PixelFormat) (ce : Nat) (st : LoadState) (s : AseStream)
    (li : Nat) (cel : Cel) :
    ase_file_read_cel_payload zinf fmt ce st s li cel
        ASE_FILE_COMPRESSED_CEL =
      if 0 < (fgetw s).1 ∧ 0 < (fgetw ⟨s.data, s.pos + 2⟩).1 then
        (some { cel with image :=
            (((if (compReadAt zinf fmt ce st s).2.1 = true then
                 (compReadAt zinf fmt ce st s).2.2.1
               else (compReadAt zinf fmt ce st s).2.2.1.warn
                 "ZLib error in inflate().")).addImage
              (compReadAt zinf fmt ce st s).1).1 },
         ((((if (compReadAt zinf fmt ce st s).2.1 = true then
               (compReadAt zinf fmt ce st s).2.2.1
             else (compReadAt zinf fmt ce st s).2.2.1.warn
               "ZLib error in inflate().")).addImage
            (compReadAt zinf fmt ce st s).1).2).addCel li
           { cel with image :=
             (((if (compReadAt zinf fmt ce st s).2.1 = true then
                  (compReadAt zinf fmt ce st s).2.2.1
                else (compReadAt zinf fmt ce st s).2.2.1.warn
                  "ZLib error in inflate().")).addImage
               (compReadAt zinf fmt ce st s).1).1 },
         (compReadAt zinf fmt ce st s).2.2.2)
      else (some cel, st.addCel li cel, ⟨s.data, s.pos + 4⟩) := rfl

lemma payload_other_key (zinf : List Nat → Option (List Nat))
    (fmt : PixelFormat) (ce : Nat) (st : LoadState) (s : AseStream)
    (li : Nat) (cel : Cel) (ct : Nat) (h0 : ct ≠ ASE_FILE_RAW_CEL)
    (h1 : ct ≠ ASE_FILE_LINK_CEL) (h2 : ct ≠ ASE_FILE_COMPRESSED_CEL) :
    ase_file_read_cel_payload zinf fmt ce st s li cel ct =
      (some cel, st.addCel li cel, s) := by
  unfold ase_file_read_cel_payload
  rw [if_neg h0, if_neg h1, if_neg h2]

/-- The resolve-then-decode structure of `ase_file_read_cel_chunk`. -/
lemma cel_chunk_key (zinf : List Nat → Option (List Nat)) (frame : Nat)
    (fmt : PixelFormat) (ce : Nat) (st : LoadState) (s : AseStream) :
    ase_file_read_cel_chunk zinf frame fmt ce st s =
      (match st.sprite.indexToLayer (fgetw s).1 with
       | none => (none, st.warn "Frame didn't found layer with index",
           (⟨s.data, s.pos + 16⟩ : AseStream))
       | some li =>
         if (st.sprite.layers.getD li default).isImage = false then
           (none,
            st.warn "Invalid .ase file (frame in layer which does not contain images",
            (⟨s.data, s.pos + 16⟩ : AseStream))
         else ase_file_read_cel_payload zinf fmt ce st
           ⟨s.data, s.pos + 16⟩ li
           ⟨frame, toSigned16 (fgetw ⟨s.data, s.pos + 2⟩).1,
            toSigned16 (fgetw ⟨s.data, s.pos + 4⟩).1,
            (fgetc ⟨s.data, s.pos + 6⟩).1, 0⟩
           (fgetw ⟨s.data, s.pos + 7⟩).1) := rfl

lemma read_raw_rows_sprite (fmt : PixelFormat) (w : Nat) :
    ∀ (h : Nat) (st : LoadState) (s : AseStream),
    (read_raw_rows fmt w h st s).2.1.sprite = st.sprite := by
  intro h
  induction h with
  | zero => intro st s; rfl
  | succ n ih => intro st s; exact ih _ _

lemma read_raw_image_sprite (fmt : PixelFormat) (img : Image)
    (st : LoadState) (s : AseStream) :
    (read_raw_image fmt img st s).2.1.sprite = st.sprite :=
  read_raw_rows_sprite fmt img.w img.h st s

lemma read_blocks_sprite (chunk_end : Nat) :
    ∀ (fuel : Nat) (st : LoadState) (s : AseStream),
    (read_compressed_blocks chunk_end fuel st s).1.sprite = st.sprite := by
  intro fuel
  induction fuel with
  | zero => intro st s; rfl
  | succ n ih =>
    intro st s
    simp only [read_compressed_blocks]
    split
    · split
      · rfl
      · exact ih _ _
    · split
      · rfl
      · exact ih _ _

lemma read_compressed_key (zinf : List Nat → Option (List Nat))
    (fmt : PixelFormat) (img : Image) (chunk_end : Nat) (st : LoadState)
    (s : AseStream) :
    read_compressed_image zinf fmt img chunk_end st s =
      (match zinf (((read_compressed_blocks chunk_end
          ((chunk_end - s.pos) / 4096 + 1) st s).2.data.drop s.pos).take
          (chunk_end - s.pos)) with
       | some bytes =>
         ({ img with pixels := (decodeBytes fmt (img.w * img.h)
             (bytes.take (img.h * (fmt.bpp * img.w)) ++
              List.replicate (img.h * (fmt.bpp * img.w) - bytes.length) 0)) },
          true,
          (read_compressed_blocks chunk_end
            ((chunk_end - s.pos) / 4096 + 1) st s).1,
          (read_compressed_blocks chunk_end
            ((chunk_end - s.pos) / 4096 + 1) st s).2)
       | none =>
         (img, false,
          (read_compressed_blocks chunk_end
            ((chunk_end - s.pos) / 4096 + 1) st s).1,
          (read_compressed_blocks chunk_end
            ((chunk_end - s.pos) / 4096 + 1) st s).2)) := rfl

lemma read_compressed_sprite (zinf : List Nat → Option (List Nat))
    (fmt : PixelFormat) (img : Image) (chunk_end : Nat) (st : LoadState)
    (s : AseStream) :
    (read_compressed_image zinf fmt img chunk_end st s).2.2.1.sprite =
      st.sprite := by
  rw [read_compressed_key]
  split
  · exact read_blocks_sprite _ _ _ _
  · exact read_blocks_sprite _ _ _ _

lemma payload_sprite_durations (zinf : List Nat → Option (List Nat))
    (fmt : PixelFormat) (ce : Nat) (st : LoadState) (s : AseStream)
    (li : Nat) (cel : Cel) (ct : Nat) :
    (ase_file_read_cel_payload zinf fmt ce st s li cel
        ct).2.1.sprite.durations = st.sprite.durations := by
  by_cases h0 : ct = ASE_FILE_RAW_CEL
  · subst h0
    rw [payload_raw_key]
    split
    · show ((((rawReadAt fmt st s).2.1.addImage _).2).addCel li
        _).sprite.durations = _
      simp only [LoadState.addImage, LoadState.addCel]
      have := read_raw_image_sprite fmt
        (Image.create fmt (fgetw s).1 (fgetw ⟨s.data, s.pos + 2⟩).1) st
        ⟨s.data, s.pos + 4⟩
      rw [show (rawReadAt fmt st s).2.1.sprite = st.sprite from this]
    · simp [LoadState.addCel]
  by_cases h1 : ct = ASE_FILE_LINK_CEL
  · subst h1
    rw [payload_link_key]
    split
    · simp [LoadState.addImage, LoadState.addCel]
    · rfl
  by_cases h2 : ct = ASE_FILE_COMPRESSED_CEL
  · subst h2
    rw [payload_comp_key]
    split
    · show (((if (compReadAt zinf fmt ce st s).2.1 = true then
          (compReadAt zinf fmt ce st s).2.2.1
        else (compReadAt zinf fmt ce st s).2.2.1.warn
          "ZLib error in inflate().").addImage
          (compReadAt zinf fmt ce st s).1).2.addCel li _).sprite.durations = _
      have hc : ∀ b : Bool, (if b = true then
          (compReadAt zinf fmt ce st s).2.2.1
        else (compReadAt zinf fmt ce st s).2.2.1.warn
          "ZLib error in inflate().").sprite =
          (compReadAt zinf fmt ce st s).2.2.1.sprite := by
        intro b; cases b <;> rfl
      simp only [LoadState.addImage, LoadState.addCel]
      rw [hc]
      rw [show (compReadAt zinf fmt ce st s).2.2.1.sprite = st.sprite from
        read_compressed_sprite zinf fmt _ ce st _]
    · simp [LoadState.addCel]
  · rw [payload_other_key zinf fmt ce st s li cel ct h0 h1 h2]
    simp [LoadState.addCel]

lemma layer_chunk_key (sp : Sprite) (ll : Nat) (cl : Int) (s : AseStream) :
    ase_file_read_layer_chunk sp ll cl s =
      (if (fgetw ⟨s.data, s.pos + 2⟩).1 = 0 ∨
          (fgetw ⟨s.data, s.pos + 2⟩).1 = 1 then
        ({ sp with layers := sp.layers ++
            [⟨(fgetw ⟨s.data, s.pos + 2⟩).1 = 0, (fgetw s).1,
              (ase_file_read_string ⟨s.data, s.pos + 16⟩).1,
              (if ((fgetw ⟨s.data, s.pos + 4⟩).1 : Int) = cl then
                 sp.layerParent ll
               else if cl < ((fgetw ⟨s.data, s.pos + 4⟩).1 : Int) then ll
               else sp.layerParent (sp.layerParent ll)), []⟩] },
         sp.layers.length, ((fgetw ⟨s.data, s.pos + 4⟩).1 : Int),
         (ase_file_read_string ⟨s.data, s.pos + 16⟩).2)
      else (sp, ll, cl, (ase_file_read_string ⟨s.data, s.pos + 16⟩).2)) := rfl

lemma layer_chunk_durations (sp : Sprite) (ll : Nat) (cl : Int)
    (s : AseStream) :
    (ase_file_read_layer_chunk sp ll cl s).1.durations = sp.durations := by
  rw [layer_chunk_key]
  split
  · rfl
  · rfl

lemma cel_chunk_durations (zinf : List Nat → Option (List Nat))
    (frame : Nat) (fmt : PixelFormat) (ce : Nat) (st : LoadState)
    (s : AseStream) :
    (ase_file_read_cel_chunk zinf frame fmt ce st
        s).2.1.sprite.durations = st.sprite.durations := by
  rw [cel_chunk_key]
  split
  · rfl
  · split
    · rfl
    · exact payload_sprite_durations zinf fmt ce st _ _ _ _

lemma dispatch_durations (zinf : List Nat → Option (List Nat))
    (frame ct ce : Nat) (st : LoadState) (s : AseStream) :
    (ase_dispatch_chunk zinf frame ct ce st s).1.sprite.durations =
      st.sprite.durations := by
  unfold ase_dispatch_chunk
  split
  · split
    · split
      dsimp only
      split
      · rfl
      · rfl
    · rfl
  · split
    · exact layer_chunk_durations _ _ _ _
    · split
      · exact cel_chunk_durations zinf frame _ _ st _
      · split
        · rfl
        · split
          · rfl
          · rfl

lemma chunks_durations (zinf : List Nat → Option (List Nat)) (frame : Nat) :
    ∀ (c : Nat) (st : LoadState) (s : AseStream),
    (ase_read_chunks zinf frame c st s).1.sprite.durations =
      st.sprite.durations := by
  intro c
  induction c with
  | zero => intro st s; rfl
  | succ n ih =>
    intro st s
    rw [show ase_read_chunks zinf frame (n + 1) st s =
      ase_read_chunks zinf frame n (ase_read_chunk zinf frame st s).1
        (ase_read_chunk zinf frame st s).2 from rfl]
    rw [ih]
    show ((ase_dispatch_chunk zinf frame (fgetw ⟨s.data, s.pos + 4⟩).1
      (s.pos + (fgetl s).1) (st.report s.pos)
      ⟨s.data, s.pos + 6⟩).1).sprite.durations = _
    rw [dispatch_durations]
    rfl

/-! ### Helper lemmas for the save side -/

/-- Little-endian byte lists for the 16- and 32-bit writes. -/
def le2 (v : Nat) : List Nat := [v % 256, v / 256 % 256]

/-- The four bytes of a 32-bit little-endian write. -/
def le4 (v : Nat) : List Nat :=
  [v % 256, v / 256 % 256, v / 65536 % 256, v / 16777216 % 256]

lemma wputc_append (d : List Nat) (b : Nat) :
    wputc ⟨d, d.length⟩ b = ⟨d ++ [b % 256], d.length + 1⟩ := by
  simp [wputc]

lemma wputc_set (d : List Nat) (p b : Nat) (h : p < d.length) :
    wputc ⟨d, p⟩ b = ⟨d.set p (b % 256), p + 1⟩ := by
  simp [wputc, h]

lemma wputBytes_append (bs : List Nat) :
    ∀ d : List Nat, wputBytes ⟨d, d.length⟩ bs =
      ⟨d ++ bs.map (· % 256), d.length + bs.length⟩ := by
  induction bs with
  | nil => intro d; simp [wputBytes]
  | cons b rest ih =>
    intro d
    show wputBytes (wputc ⟨d, d.length⟩ b) rest = _
    rw [wputc_append]
    rw [show (⟨d ++ [b % 256], d.length + 1⟩ : WStream) =
      ⟨d ++ [b % 256], (d ++ [b % 256]).length⟩ from by simp]
    rw [ih]
    simp [List.append_assoc]
    omega

lemma trip_fold (entries : List Nat) :
    ∀ d : List Nat,
    entries.foldl (fun w c =>
        wputc (wputc (wputc w (rgbaGetr c)) (rgbaGetg c)) (rgbaGetb c))
      ⟨d, d.length⟩ =
      ⟨d ++ entries.flatMap (fun c => [rgbaGetr c, rgbaGetg c, rgbaGetb c]),
       d.length + 3 * entries.length⟩ := by
  induction entries with
  | nil => intro d; simp
  | cons c rest ih =>
    intro d
    show rest.foldl _
      (wputc (wputc (wputc ⟨d, d.length⟩ (rgbaGetr c)) (rgbaGetg c))
        (rgbaGetb c)) = _
    rw [wputc_append]
    have e1 : rgbaGetr c % 256 = rgbaGetr c := by unfold rgbaGetr; omega
    rw [e1]
    rw [show (⟨d ++ [rgbaGetr c], d.length + 1⟩ : WStream) =
      ⟨d ++ [rgbaGetr c], (d ++ [rgbaGetr c]).length⟩ from by simp]
    rw [wputc_append]
    have e2 : rgbaGetg c % 256 = rgbaGetg c := by unfold rgbaGetg; omega
    rw [e2]
    rw [show (⟨d ++ [rgbaGetr c] ++ [rgbaGetg c],
        (d ++ [rgbaGetr c]).length + 1⟩ : WStream) =
      ⟨d ++ [rgbaGetr c] ++ [rgbaGetg c],
       (d ++ [rgbaGetr c] ++ [rgbaGetg c]).length⟩ from by simp]
    rw [wputc_append]
    have e3 : rgbaGetb c % 256 = rgbaGetb c := by unfold rgbaGetb; omega
    rw [e3]
    rw [show (⟨d ++ [rgbaGetr c] ++ [rgbaGetg c] ++ [rgbaGetb c],
        (d ++ [rgbaGetr c] ++ [rgbaGetg c]).length + 1⟩ : WStream) =
      ⟨d ++ [rgbaGetr c] ++ [rgbaGetg c] ++ [rgbaGetb c],
       (d ++ [rgbaGetr c] ++ [rgbaGetg c] ++ [rgbaGetb c]).length⟩ from by
      simp]
    rw [ih]
    simp [List.append_assoc]
    omega
lemma wputc_gap (d : List Nat) (k b : Nat) :
    wputc ⟨d, d.length + k⟩ b =
      ⟨d ++ List.replicate k 0 ++ [b % 256], d.length + k + 1⟩ := by
  have hnk : ¬ (d.length + k < d.length) := by omega
  simp [wputc, hnk]

lemma close_chunk_key (d : List Nat) (x0 x1 x2 x3 x4 x5 : Nat)
    (body : List Nat) (fc type : Nat) (ty : List Nat) (pr : List Nat) :
    ase_file_write_close_chunk
      ⟨⟨d ++ ([x0, x1, x2, x3, x4, x5] ++ body), d.length + 6 + body.length⟩,
       fc, type, d.length, ty, pr⟩ =
      ⟨⟨d ++ (le4 (6 + body.length) ++ (le2 type ++ body)),
        d.length + 6 + body.length⟩, fc, type, d.length, ty, pr⟩ := by
  have hL : ∀ y : List Nat, y.length = 6 + body.length →
      (d ++ y).length = d.length + 6 + body.length := by
    intro y hy; simp [hy]; omega
  have h1 : wputc ⟨d ++ ([x0, x1, x2, x3, x4, x5] ++ body), d.length⟩
      ((6 + body.length) % 256) =
      ⟨d ++ ([(6 + body.length) % 256 % 256, x1, x2, x3, x4, x5] ++ body),
       d.length + 1⟩ := by
    rw [wputc_set _ _ _ (by simp; try omega)]
    rw [List.set_append_right _ _ (le_refl d.length)]
    simp
  have h2 : wputc
      ⟨d ++ ([(6 + body.length) % 256 % 256, x1, x2, x3, x4, x5] ++ body),
       d.length + 1⟩ ((6 + body.length) / 256) =
      ⟨d ++ ([(6 + body.length) % 256 % 256, (6 + body.length) / 256 % 256,
        x2, x3, x4, x5] ++ body), d.length + 2⟩ := by
    rw [wputc_set _ _ _ (by simp; try omega)]
    rw [List.set_append_right _ _ (by omega)]
    rw [show d.length + 1 - d.length = 1 from by omega]
    simp
  have h3 : wputc
      ⟨d ++ ([(6 + body.length) % 256 % 256, (6 + body.length) / 256 % 256,
        x2, x3, x4, x5] ++ body), d.length + 2⟩ ((6 + body.length) / 65536) =
      ⟨d ++ ([(6 + body.length) % 256 % 256, (6 + body.length) / 256 % 256,
        (6 + body.length) / 65536 % 256, x3, x4, x5] ++ body),
       d.length + 3⟩ := by
    rw [wputc_set _ _ _ (by simp; try omega)]
    rw [List.set_append_right _ _ (by omega)]
    rw [show d.length + 2 - d.length = 2 from by omega]
    simp
  have h4 : wputc
      ⟨d ++ ([(6 + body.length) % 256 % 256, (6 + body.length) / 256 % 256,
        (6 + body.length) / 65536 % 256, x3, x4, x5] ++ body),
       d.length + 3⟩ ((6 + body.length) / 16777216) =
      ⟨d ++ ([(6 + body.length) % 256 % 256, (6 + body.length) / 256 % 256,
        (6 + body.length) / 65536 % 256, (6 + body.length) / 16777216 % 256,
        x4, x5] ++ body), d.length + 4⟩ := by
    rw [wputc_set _ _ _ (by simp; try omega)]
    rw [List.set_append_right _ _ (by omega)]
    rw [show d.length + 3 - d.length = 3 from by omega]
    simp
  have h5 : wputc
      ⟨d ++ ([(6 + body.length) % 256 % 256, (6 + body.length) / 256 % 256,
        (6 + body.length) / 65536 % 256, (6 + body.length) / 16777216 % 256,
        x4, x5] ++ body), d.length + 4⟩ (type % 256) =
      ⟨d ++ ([(6 + body.length) % 256 % 256, (6 + body.length) / 256 % 256,
        (6 + body.length) / 65536 % 256, (6 + body.length) / 16777216 % 256,
        type % 256 % 256, x5] ++ body), d.length + 5⟩ := by
    rw [wputc_set _ _ _ (by simp; try omega)]
    rw [List.set_append_right _ _ (by omega)]
    rw [show d.length + 4 - d.length = 4 from by omega]
    simp
  have h6 : wputc
      ⟨d ++ ([(6 + body.length) % 256 % 256, (6 + body.length) / 256 % 256,
        (6 + body.length) / 65536 % 256, (6 + body.length) / 16777216 % 256,
        type % 256 % 256, x5] ++ body), d.length + 5⟩ (type / 256) =
      ⟨d ++ ([(6 + body.length) % 256 % 256, (6 + body.length) / 256 % 256,
        (6 + body.length) / 65536 % 256, (6 + body.length) / 16777216 % 256,
        type % 256 % 256, type / 256 % 256] ++ body), d.length + 6⟩ := by
    rw [wputc_set _ _ _ (by simp; try omega)]
    rw [List.set_append_right _ _ (by omega)]
    rw [show d.length + 5 - d.length = 5 from by omega]
    simp
  unfold ase_file_write_close_chunk wputl wputw
  dsimp only [wseek]
  rw [show d.length + 6 + body.length - d.length = 6 + body.length from by
    omega]
  rw [h1, h2, h3, h4, h5, h6]
  have e1 : (6 + body.length) % 256 % 256 = (6 + body.length) % 256 := by
    omega
  have e2 : type % 256 % 256 = type % 256 := by omega
  rw [e1, e2]
  simp [le4, le2]
lemma wputc_append2 (d : List Nat) (p b : Nat) (h : p = d.length) :
    wputc ⟨d, p⟩ b = ⟨d ++ [b % 256], p + 1⟩ := by
  subst h; exact wputc_append d b

lemma trip_fold2 (entries : List Nat) (d : List Nat) (p : Nat)
    (h : p = d.length) :
    entries.foldl (fun w c =>
        wputc (wputc (wputc w (rgbaGetr c)) (rgbaGetg c)) (rgbaGetb c))
      ⟨d, p⟩ =
      ⟨d ++ entries.flatMap (fun c => [rgbaGetr c, rgbaGetg c, rgbaGetb c]),
       p + 3 * entries.length⟩ := by
  subst h; exact trip_fold entries d

lemma close_chunk_key2 (dd : List Nat) (pp ss : Nat) (d : List Nat)
    (x0 x1 x2 x3 x4 x5 : Nat) (body : List Nat) (fc type : Nat)
    (ty : List Nat) (pr : List Nat)
    (hd : dd = d ++ ([x0, x1, x2, x3, x4, x5] ++ body))
    (hp : pp = d.length + 6 + body.length) (hs : ss = d.length) :
    ase_file_write_close_chunk ⟨⟨dd, pp⟩, fc, type, ss, ty, pr⟩ =
      ⟨⟨d ++ (le4 (6 + body.length) ++ (le2 type ++ body)),
        d.length + 6 + body.length⟩, fc, type, d.length, ty, pr⟩ := by
  subst hd hp hs
  exact close_chunk_key d x0 x1 x2 x3 x4 x5 body fc type ty pr

lemma flatMap_triple_length (entries : List Nat) :
    (entries.flatMap
      (fun c => [rgbaGetr c, rgbaGetg c, rgbaGetb c])).length =
      3 * entries.length := by
  induction entries with
  | nil => rfl
  | cons c rest ih => simp [ih]; omega

/-- The byte list a direct-value palette chunk writes after its 6-byte
header: one packet — skip 0, the whole palette's size byte — and the RGB
triples. -/
def color2Body (pal : Palette) : List Nat :=
  [1, 0, 0,
   (if pal.entries.length = 256 then 0 else pal.entries.length) % 256] ++
  pal.entries.flatMap (fun c => [rgbaGetr c, rgbaGetg c, rgbaGetb c])

lemma write_color2_key (d : List Nat) (fc ctp csp : Nat)
    (ty pr : List Nat) (pal : Palette) :
    ase_file_write_color2_chunk ⟨⟨d, d.length⟩, fc, ctp, csp, ty, pr⟩ pal =
      ⟨⟨d ++ (le4 (6 + (color2Body pal).length) ++
          (le2 ASE_FILE_CHUNK_FLI_COLOR2 ++ color2Body pal)),
        d.length + 6 + (color2Body pal).length⟩,
       fc + 1, ASE_FILE_CHUNK_FLI_COLOR2, d.length,
       ty ++ [ASE_FILE_CHUNK_FLI_COLOR2], pr⟩ := by
  have e1 : wputc ⟨d, d.length + 6⟩ 1 =
      ⟨d ++ [0, 0, 0, 0, 0, 0] ++ [1], d.length + 7⟩ := by
    rw [wputc_gap]
    rw [show List.replicate 6 (0 : Nat) = [0, 0, 0, 0, 0, 0] from rfl]
  have e2 : wputc ⟨d ++ [0, 0, 0, 0, 0, 0] ++ [1], d.length + 7⟩ 0 =
      ⟨d ++ [0, 0, 0, 0, 0, 0] ++ [1] ++ [0], d.length + 8⟩ := by
    rw [wputc_append2 _ _ _ (by simp)]
  have e3 : wputc ⟨d ++ [0, 0, 0, 0, 0, 0] ++ [1] ++ [0], d.length + 8⟩ 0 =
      ⟨d ++ [0, 0, 0, 0, 0, 0] ++ [1] ++ [0] ++ [0], d.length + 9⟩ := by
    rw [wputc_append2 _ _ _ (by simp)]
  have e4 : wputc
      ⟨d ++ [0, 0, 0, 0, 0, 0] ++ [1] ++ [0] ++ [0], d.length + 9⟩
      (if pal.entries.length = 256 then 0 else pal.entries.length) =
      ⟨d ++ [0, 0, 0, 0, 0, 0] ++ [1] ++ [0] ++ [0] ++
        [(if pal.entries.length = 256 then 0 else pal.entries.length) %
          256], d.length + 10⟩ := by
    rw [wputc_append2 _ _ _ (by simp)]
  have e5 : List.foldl (fun w c =>
      wputc (wputc (wputc w (rgbaGetr c)) (rgbaGetg c)) (rgbaGetb c))
      ⟨d ++ [0, 0, 0, 0, 0, 0] ++ [1] ++ [0] ++ [0] ++
        [(if pal.entries.length = 256 then 0 else pal.entries.length) %
          256], d.length + 10⟩ pal.entries =
      ⟨d ++ [0, 0, 0, 0, 0, 0] ++ [1] ++ [0] ++ [0] ++
        [(if pal.entries.length = 256 then 0 else pal.entries.length) %
          256] ++
        pal.entries.flatMap (fun c => [rgbaGetr c, rgbaGetg c, rgbaGetb c]),
       d.length + 10 + 3 * pal.entries.length⟩ := by
    rw [trip_fold2 _ _ _ (by simp)]
  unfold ase_file_write_color2_chunk ase_file_write_start_chunk wputw
  dsimp only [wseek]
  rw [show (1 : Nat) % 256 = 1 from rfl, show (1 : Nat) / 256 = 0 from rfl]
  rw [e1, e2, e3, e4, e5]
  rw [close_chunk_key2 _ _ _ d 0 0 0 0 0 0 (color2Body pal)
    (fc + 1) ASE_FILE_CHUNK_FLI_COLOR2 (ty ++ [ASE_FILE_CHUNK_FLI_COLOR2])
    pr (by simp [color2Body])
    (by
      have hbl : (color2Body pal).length = 4 + 3 * pal.entries.length := by
        unfold color2Body
        rw [List.length_append, flatMap_triple_length]
        simp
      omega) rfl]
lemma close_chunk_types_eq (st : WState) :
    (ase_file_write_close_chunk st).types = st.types := by
  unfold ase_file_write_close_chunk
  dsimp only

lemma close_chunk_progress_eq (st : WState) :
    (ase_file_write_close_chunk st).progress = st.progress := by
  unfold ase_file_write_close_chunk
  dsimp only

lemma start_chunk_types_eq (st : WState) (t : Nat) :
    (ase_file_write_start_chunk st t).types = st.types ++ [t] := rfl

lemma start_chunk_progress_eq (st : WState) (t : Nat) :
    (ase_file_write_start_chunk st t).progress = st.progress := rfl

lemma write_layer_chunk_types (st : WState) (depth : Nat) (l : SLayer) :
    (ase_file_write_layer_chunk st depth l).types =
      st.types ++ [ASE_FILE_CHUNK_LAYER] ∧
    (ase_file_write_layer_chunk st depth l).progress = st.progress := by
  cases l <;>
    simp [ase_file_write_layer_chunk, close_chunk_types_eq,
      close_chunk_progress_eq, start_chunk_types_eq,
      start_chunk_progress_eq]

lemma write_cel_chunk_types (zdef : List Nat → List Nat) (sprite : SSprite)
    (st : WState) (li : Nat) (cel : Cel) :
    (ase_file_write_cel_chunk zdef sprite st li cel).types =
      st.types ++ [ASE_FILE_CHUNK_CEL] ∧
    (ase_file_write_cel_chunk zdef sprite st li cel).progress =
      st.progress := by
  simp [ase_file_write_cel_chunk, close_chunk_types_eq,
    close_chunk_progress_eq, start_chunk_types_eq, start_chunk_progress_eq]

lemma write_layers_types :
    (∀ (st : WState) (depth : Nat) (l : SLayer), ∃ ts,
      (ase_file_write_layers st depth l).types = st.types ++ ts ∧
      (∀ t ∈ ts, t = ASE_FILE_CHUNK_LAYER) ∧
      (ase_file_write_layers st depth l).progress = st.progress) ∧
    (∀ (st : WState) (depth : Nat) (ls : List SLayer), ∃ ts,
      (ase_file_write_layers_list st depth ls).types = st.types ++ ts ∧
      (∀ t ∈ ts, t = ASE_FILE_CHUNK_LAYER) ∧
      (ase_file_write_layers_list st depth ls).progress = st.progress) := by
  refine ase_file_write_layers.mutual_induct
    (fun st depth l => ∃ ts,
      (ase_file_write_layers st depth l).types = st.types ++ ts ∧
      (∀ t ∈ ts, t = ASE_FILE_CHUNK_LAYER) ∧
      (ase_file_write_layers st depth l).progress = st.progress)
    (fun st depth ls => ∃ ts,
      (ase_file_write_layers_list st depth ls).types = st.types ++ ts ∧
      (∀ t ∈ ts, t = ASE_FILE_CHUNK_LAYER) ∧
      (ase_file_write_layers_list st depth ls).progress = st.progress)
    ?_ ?_ ?_ ?_
  · intro st depth flags blendMode name cels
    refine ⟨[ASE_FILE_CHUNK_LAYER], ?_, ?_, ?_⟩
    · simp only [ase_file_write_layers]
      exact (write_layer_chunk_types st depth _).1
    · intro t ht; simpa using ht
    · simp only [ase_file_write_layers]
      exact (write_layer_chunk_types st depth _).2
  · intro st depth flags name children st1 ih
    obtain ⟨ts, hts, hall, hpr⟩ := ih
    refine ⟨[ASE_FILE_CHUNK_LAYER] ++ ts, ?_, ?_, ?_⟩
    · simp only [ase_file_write_layers]
      rw [show ase_file_write_layers_list
          (ase_file_write_layer_chunk st depth
            (SLayer.folder flags name children)) (depth + 1) children =
          ase_file_write_layers_list st1 (depth + 1) children from rfl]
      rw [hts, (write_layer_chunk_types st depth _).1]
      simp
    · intro t ht
      rcases List.mem_append.1 ht with h | h
      · simpa using h
      · exact hall t h
    · simp only [ase_file_write_layers]
      rw [show ase_file_write_layers_list
          (ase_file_write_layer_chunk st depth
            (SLayer.folder flags name children)) (depth + 1) children =
          ase_file_write_layers_list st1 (depth + 1) children from rfl]
      rw [hpr, (write_layer_chunk_types st depth _).2]
  · intro st depth
    exact ⟨[], by simp [ase_file_write_layers_list], by simp,
      by simp [ase_file_write_layers_list]⟩
  · intro st depth l rest ih1 ih2
    obtain ⟨ts1, h1, a1, p1⟩ := ih1
    obtain ⟨ts2, h2, a2, p2⟩ := ih2
    refine ⟨ts1 ++ ts2, ?_, ?_, ?_⟩
    · simp only [ase_file_write_layers_list]
      rw [h2, h1, List.append_assoc]
    · intro t ht
      rcases List.mem_append.1 ht with h | h
      · exact a1 t h
      · exact a2 t h
    · simp only [ase_file_write_layers_list]
      rw [p2, p1]

lemma write_cels_types (zdef : List Nat → List Nat) (sprite : SSprite)
    (frame : Nat) :
    (∀ (st : WState) (li : Nat) (l : SLayer), ∃ ts,
      (ase_file_write_cels zdef sprite frame st li l).1.types =
        st.types ++ ts ∧
      (∀ t ∈ ts, t = ASE_FILE_CHUNK_CEL) ∧
      (ase_file_write_cels zdef sprite frame st li l).1.progress =
        st.progress) ∧
    (∀ (st : WState) (li : Nat) (ls : List SLayer), ∃ ts,
      (ase_file_write_cels_list zdef sprite frame st li ls).1.types =
        st.types ++ ts ∧
      (∀ t ∈ ts, t = ASE_FILE_CHUNK_CEL) ∧
      (ase_file_write_cels_list zdef sprite frame st li ls).1.progress =
        st.progress) := by
  refine ase_file_write_cels.mutual_induct zdef sprite frame
    (fun st li l => ∃ ts,
      (ase_file_write_cels zdef sprite frame st li l).1.types =
        st.types ++ ts ∧
      (∀ t ∈ ts, t = ASE_FILE_CHUNK_CEL) ∧
      (ase_file_write_cels zdef sprite frame st li l).1.progress =
        st.progress)
    (fun st li ls => ∃ ts,
      (ase_file_write_cels_list zdef sprite frame st li ls).1.types =
        st.types ++ ts ∧
      (∀ t ∈ ts, t = ASE_FILE_CHUNK_CEL) ∧
      (ase_file_write_cels_list zdef sprite frame st li ls).1.progress =
        st.progress)
    ?_ ?_ ?_ ?_
  · intro st li flags blendMode name cels
    rcases hh : (cels.filter (fun c => c.frame = frame)).head? with _ | cel
    · refine ⟨[], ?_, by simp, ?_⟩
      · simp [ase_file_write_cels, hh]
      · simp [ase_file_write_cels, hh]
    · refine ⟨[ASE_FILE_CHUNK_CEL], ?_, ?_, ?_⟩
      · simp only [ase_file_write_cels, hh]
        exact (write_cel_chunk_types zdef sprite st li cel).1
      · intro t ht; simpa using ht
      · simp only [ase_file_write_cels, hh]
        exact (write_cel_chunk_types zdef sprite st li cel).2
  · intro st li flags name children ih
    obtain ⟨ts, hts, hall, hpr⟩ := ih
    refine ⟨ts, ?_, hall, ?_⟩
    · simp only [ase_file_write_cels]
      exact hts
    · simp only [ase_file_write_cels]
      exact hpr
  · intro st li
    exact ⟨[], by simp [ase_file_write_cels_list], by simp,
      by simp [ase_file_write_cels_list]⟩
  · intro st li l rest st1 li1 heq ih1 ih2
    obtain ⟨ts1, h1, a1, p1⟩ := ih1
    obtain ⟨ts2, h2, a2, p2⟩ := ih2
    have h1' : st1.types = st.types ++ ts1 := by
      rw [← h1, heq]
    have p1' : st1.progress = st.progress := by
      rw [← p1, heq]
    refine ⟨ts1 ++ ts2, ?_, ?_, ?_⟩
    · simp only [ase_file_write_cels_list, heq]
      rw [h2, h1', List.append_assoc]
    · intro t ht
      rcases List.mem_append.1 ht with h | h
      · exact a1 t h
      · exact a2 t h
    · simp only [ase_file_write_cels_list, heq]
      rw [p2, p1']
lemma write_color2_types (st : WState) (pal : Palette) :
    (ase_file_write_color2_chunk st pal).types =
      st.types ++ [ASE_FILE_CHUNK_FLI_COLOR2] ∧
    (ase_file_write_color2_chunk st pal).progress = st.progress := by
  simp [ase_file_write_color2_chunk, close_chunk_types_eq,
    close_chunk_progress_eq, start_chunk_types_eq, start_chunk_progress_eq]

lemma count_eq_zero_of_all {l : List Nat} {v : Nat}
    (hall : ∀ x ∈ l, x = v) (t : Nat) (hne : t ≠ v) : l.count t = 0 := by
  rw [List.count_eq_zero]
  intro hmem
  exact hne (hall t hmem)

lemma not_mem_of_all {l : List Nat} {v : Nat}
    (hall : ∀ x ∈ l, x = v) (t : Nat) (hne : t ≠ v) : t ∉ l := by
  intro hmem
  exact hne (hall t hmem)

lemma save_frame_types (zdef : List Nat → List Nat) (sprite : SSprite)
    (frame : Nat) (st : WState) : ∃ ts,
    (ase_save_frame zdef sprite frame st).types = st.types ++ ts ∧
    ts.count ASE_FILE_CHUNK_FLI_COLOR2 =
      (if sprite.pixelFormat = .indexed ∧ (frame = 0 ∨
          0 < countDiff (getPaletteFrom sprite.palettes (frame - 1))
            (getPaletteFrom sprite.palettes frame)) then 1 else 0) ∧
    ASE_FILE_CHUNK_FLI_COLOR ∉ ts := by
  unfold ase_save_frame
  dsimp only
  set st0 : WState :=
    { st with frameChunks := 0, w := wseek st.w (st.w.pos + 16) } with hst0
  have h0 : st0.types = st.types := by rw [hst0]
  by_cases hcond : sprite.pixelFormat = .indexed ∧ (frame = 0 ∨
      0 < countDiff (getPaletteFrom sprite.palettes (frame - 1))
        (getPaletteFrom sprite.palettes frame))
  · rw [if_pos hcond]
    set st1 : WState := ase_file_write_color2_chunk st0
      (getPaletteFrom sprite.palettes frame) with hst1
    have h1 : st1.types = st.types ++ [ASE_FILE_CHUNK_FLI_COLOR2] := by
      rw [hst1, (write_color2_types st0 _).1, h0]
    by_cases hframe : frame = 0
    · rw [if_pos hframe]
      set st2 : WState := ase_file_write_layers_list st1 0
        sprite.rootLayers with hst2
      obtain ⟨tsL, hL, aL, _⟩ := write_layers_types.2 st1 0
        sprite.rootLayers
      obtain ⟨tsC, hC, aC, _⟩ := (write_cels_types zdef sprite frame).2 st2
        0 sprite.rootLayers
      refine ⟨[ASE_FILE_CHUNK_FLI_COLOR2] ++ (tsL ++ tsC), ?_, ?_, ?_⟩
      · rw [hC, hst2, hL, h1]
        simp
      · rw [if_pos hcond]
        simp [List.count_append,
          count_eq_zero_of_all aL ASE_FILE_CHUNK_FLI_COLOR2 (by decide),
          count_eq_zero_of_all aC ASE_FILE_CHUNK_FLI_COLOR2 (by decide)]
      · intro hmem
        rcases List.mem_append.1 hmem with h | h
        · exact absurd h (by decide)
        · rcases List.mem_append.1 h with h | h
          · exact not_mem_of_all aL ASE_FILE_CHUNK_FLI_COLOR (by decide) h
          · exact not_mem_of_all aC ASE_FILE_CHUNK_FLI_COLOR (by decide) h
    · rw [if_neg hframe]
      obtain ⟨tsC, hC, aC, _⟩ := (write_cels_types zdef sprite frame).2 st1
        0 sprite.rootLayers
      refine ⟨[ASE_FILE_CHUNK_FLI_COLOR2] ++ tsC, ?_, ?_, ?_⟩
      · rw [hC, h1]
        simp
      · rw [if_pos hcond]
        simp [List.count_append, count_eq_zero_of_all aC ASE_FILE_CHUNK_FLI_COLOR2 (by decide)]
      · intro hmem
        rcases List.mem_append.1 hmem with h | h
        · exact absurd h (by decide)
        · exact not_mem_of_all aC ASE_FILE_CHUNK_FLI_COLOR (by decide) h
  · rw [if_neg hcond]
    by_cases hframe : frame = 0
    · rw [if_pos hframe]
      set st2 : WState := ase_file_write_layers_list st0 0
        sprite.rootLayers with hst2
      obtain ⟨tsL, hL, aL, _⟩ := write_layers_types.2 st0 0
        sprite.rootLayers
      obtain ⟨tsC, hC, aC, _⟩ := (write_cels_types zdef sprite frame).2 st2
        0 sprite.rootLayers
      refine ⟨tsL ++ tsC, ?_, ?_, ?_⟩
      · rw [hC, hst2, hL, h0]
        simp
      · rw [if_neg hcond]
        simp [List.count_append,
          count_eq_zero_of_all aL ASE_FILE_CHUNK_FLI_COLOR2 (by decide),
          count_eq_zero_of_all aC ASE_FILE_CHUNK_FLI_COLOR2 (by decide)]
      · intro hmem
        rcases List.mem_append.1 hmem with h | h
        · exact not_mem_of_all aL ASE_FILE_CHUNK_FLI_COLOR (by decide) h
        · exact not_mem_of_all aC ASE_FILE_CHUNK_FLI_COLOR (by decide) h
    · rw [if_neg hframe]
      obtain ⟨tsC, hC, aC, _⟩ := (write_cels_types zdef sprite frame).2 st0
        0 sprite.rootLayers
      refine ⟨tsC, ?_, ?_, ?_⟩
      · rw [hC, h0]
      · rw [if_neg hcond]
        simp [count_eq_zero_of_all aC ASE_FILE_CHUNK_FLI_COLOR2 (by decide)]
      · exact not_mem_of_all aC ASE_FILE_CHUNK_FLI_COLOR (by decide)

/-! ### Progress-report bracketing (the `fop_progress` call sites)

`Brkt lo ps hi` says the positions reported in `ps` form a non-decreasing
chain that starts no earlier than `lo` and ends no later than `hi`. -/

/-- A non-decreasing run of reported positions between two cursor bounds. -/
def Brkt (lo : Nat) (ps : List Nat) (hi : Nat) : Prop :=
  List.Chain' (· ≤ ·) (lo :: (ps ++ [hi]))

lemma brkt_nil {lo hi : Nat} (h : lo ≤ hi) : Brkt lo [] hi := by
  simp [Brkt, List.chain'_cons, h]

lemma brkt_cons {lo p hi : Nat} {ps : List Nat} (h : lo ≤ p)
    (hb : Brkt p ps hi) : Brkt lo (p :: ps) hi := by
  unfold Brkt at hb ⊢
  rw [List.cons_append, List.chain'_cons]
  exact ⟨h, hb⟩

lemma brkt_cons_elim {lo p hi : Nat} {ps : List Nat}
    (h : Brkt lo (p :: ps) hi) : lo ≤ p ∧ Brkt p ps hi := by
  unfold Brkt at h ⊢
  rw [List.cons_append, List.chain'_cons] at h
  exact h

lemma brkt_nil_elim {lo hi : Nat} (h : Brkt lo [] hi) : lo ≤ hi := by
  unfold Brkt at h
  rw [List.nil_append, List.chain'_cons] at h
  exact h.1

lemma chain_cons_of_le {a b : Nat} {l : List Nat} (h : b ≤ a)
    (hc : List.Chain' (· ≤ ·) (a :: l)) : List.Chain' (· ≤ ·) (b :: l) := by
  cases l with
  | nil => simp
  | cons c l =>
    rw [List.chain'_cons] at hc ⊢
    exact ⟨le_trans h hc.1, hc.2⟩

lemma brkt_comp_aux (mid hi : Nat) (qs : List Nat) (h2 : Brkt mid qs hi) :
    ∀ (ps : List Nat) (lo : Nat), Brkt lo ps mid → Brkt lo (ps ++ qs) hi := by
  intro ps
  induction ps with
  | nil =>
    intro lo h1
    have hlm : lo ≤ mid := brkt_nil_elim h1
    unfold Brkt at h2 ⊢
    rw [List.nil_append]
    exact chain_cons_of_le hlm h2
  | cons p ps ih =>
    intro lo h1
    obtain ⟨hlp, h1'⟩ := brkt_cons_elim h1
    exact brkt_cons hlp (ih p h1')

lemma brkt_comp {lo mid hi : Nat} {ps qs : List Nat} (h1 : Brkt lo ps mid)
    (h2 : Brkt mid qs hi) : Brkt lo (ps ++ qs) hi :=
  brkt_comp_aux mid hi qs h2 ps lo h1

lemma brkt_mono_aux (hi hi' : Nat) (hh : hi ≤ hi') :
    ∀ (ps : List Nat) (lo : Nat), Brkt lo ps hi → Brkt lo ps hi' := by
  intro ps
  induction ps with
  | nil => intro lo h1; exact brkt_nil (le_trans (brkt_nil_elim h1) hh)
  | cons p ps ih =>
    intro lo h1
    obtain ⟨hlp, h1'⟩ := brkt_cons_elim h1
    exact brkt_cons hlp (ih p h1')

lemma brkt_mono {lo' lo hi hi' : Nat} {ps : List Nat} (hl : lo' ≤ lo)
    (hh : hi ≤ hi') (hb : Brkt lo ps hi) : Brkt lo' ps hi' := by
  have h1 : Brkt lo ps hi' := brkt_mono_aux hi hi' hh ps lo hb
  unfold Brkt at h1 ⊢
  exact chain_cons_of_le hl h1

lemma brkt_chain {lo hi : Nat} {ps : List Nat} (h : Brkt lo ps hi) :
    List.Chain' (· ≤ ·) ps := by
  unfold Brkt at h
  have hsub : List.Sublist ps (lo :: (ps ++ [hi])) :=
    List.Sublist.cons _ (List.sublist_append_left ps [hi])
  exact h.sublist hsub

/-- The report behaviour of a state transformer: the forward flag is
untouched, and the positions it appends to the progress log form a
non-decreasing run bracketed by `lo` and `hi`. -/
def PSpec (st st' : LoadState) (lo hi : Nat) : Prop :=
  st'.fwd = st.fwd ∧ ∃ ps, st'.progress = st.progress ++ ps ∧ Brkt lo ps hi

lemma pspec_plain {st st' : LoadState} {lo hi : Nat} (hf : st'.fwd = st.fwd)
    (hp : st'.progress = st.progress) (h : lo ≤ hi) : PSpec st st' lo hi :=
  ⟨hf, [], by simp [hp], brkt_nil h⟩

lemma pspec_nil {st : LoadState} {lo hi : Nat} (h : lo ≤ hi) :
    PSpec st st lo hi :=
  pspec_plain rfl rfl h

lemma pspec_report (st : LoadState) {lo p : Nat} (h : lo ≤ p) :
    PSpec st (st.report p) lo p :=
  ⟨rfl, [p], rfl, brkt_cons h (brkt_nil le_rfl)⟩

lemma pspec_comp {t1 t2 t3 : LoadState} {a b c : Nat}
    (h12 : PSpec t1 t2 a b) (h23 : PSpec t2 t3 b c) : PSpec t1 t3 a c := by
  obtain ⟨hf1, ps, hp1, hb1⟩ := h12
  obtain ⟨hf2, qs, hp2, hb2⟩ := h23
  exact ⟨hf2.trans hf1, ps ++ qs, by rw [hp2, hp1, List.append_assoc],
    brkt_comp hb1 hb2⟩

lemma pspec_mono {st st' : LoadState} {lo hi lo' hi' : Nat} (hl : lo' ≤ lo)
    (hh : hi ≤ hi') (h : PSpec st st' lo hi) : PSpec st st' lo' hi' := by
  obtain ⟨hf, ps, hp, hb⟩ := h
  exact ⟨hf, ps, hp, brkt_mono hl hh hb⟩

lemma pspec_congr {st st' st'' : LoadState} {lo hi : Nat}
    (h : PSpec st st' lo hi) (hp : st''.progress = st'.progress)
    (hf : st''.fwd = st'.fwd) : PSpec st st'' lo hi := by
  obtain ⟨hf1, ps, hp1, hb⟩ := h
  exact ⟨hf.trans hf1, ps, by rw [hp, hp1], hb⟩

/-! ### Cursor monotonicity of the chunk payload readers -/

lemma readPixel_pos (fmt : PixelFormat) (s : AseStream) :
    s.pos ≤ (readPixel fmt s).2.pos := by
  cases fmt <;> simp [readPixel, fgetc] <;> try omega

lemma read_raw_row_pos (fmt : PixelFormat) : ∀ (w : Nat) (s : AseStream),
    s.pos ≤ (read_raw_row fmt w s).2.pos := by
  intro w
  induction w with
  | zero => intro s; exact le_rfl
  | succ n ih =>
    intro s
    have hkey : (read_raw_row fmt (n + 1) s).2 =
        (read_raw_row fmt n (readPixel fmt s).2).2 := rfl
    rw [hkey]
    exact le_trans (readPixel_pos fmt s) (ih _)

lemma read_string_pos (s : AseStream) : s.pos ≤ (ase_file_read_string s).2.pos := by
  show s.pos ≤ s.pos + 2 + (fgetw s).1
  omega

lemma palette_run_pos (scaled : Bool) : ∀ (size first : Nat) (pal : Palette)
    (s : AseStream),
    s.pos ≤ (ase_palette_read_run scaled first size pal s).2.pos := by
  intro size
  induction size with
  | zero => intro first pal s; exact le_rfl
  | succ n ih =>
    intro first pal s
    have hkey : (ase_palette_read_run scaled first (n + 1) pal s).2 =
        (ase_palette_read_run scaled (first + 1) n
          (pal.setEntry first
            (if scaled then
               rgba (rgbScale6 (fgetc s).1)
                 (rgbScale6 (fgetc ⟨s.data, s.pos + 1⟩).1)
                 (rgbScale6 (fgetc ⟨s.data, s.pos + 2⟩).1) 255
             else
               rgba (fgetc s).1 (fgetc ⟨s.data, s.pos + 1⟩).1
                 (fgetc ⟨s.data, s.pos + 2⟩).1 255))
          ⟨s.data, s.pos + 3⟩).2 := rfl
    rw [hkey]
    exact le_trans (Nat.le_add_right s.pos 3) (ih _ _ ⟨s.data, s.pos + 3⟩)

lemma palette_packets_pos (scaled : Bool) : ∀ (n skip : Nat) (pal : Palette)
    (s : AseStream),
    s.pos ≤ (ase_palette_read_packets scaled n skip pal s).2.pos := by
  intro n
  induction n with
  | zero => intro skip pal s; exact le_rfl
  | succ m ih =>
    intro skip pal s
    have hkey : (ase_palette_read_packets scaled (m + 1) skip pal s).2 =
        (ase_palette_read_packets scaled m (skip + (fgetc s).1)
          (ase_palette_read_run scaled (skip + (fgetc s).1)
            (if (fgetc ⟨s.data, s.pos + 1⟩).1 = 0 then 256
             else (fgetc ⟨s.data, s.pos + 1⟩).1) pal ⟨s.data, s.pos + 2⟩).1
          (ase_palette_read_run scaled (skip + (fgetc s).1)
            (if (fgetc ⟨s.data, s.pos + 1⟩).1 = 0 then 256
             else (fgetc ⟨s.data, s.pos + 1⟩).1) pal
            ⟨s.data, s.pos + 2⟩).2).2 := rfl
    rw [hkey]
    exact le_trans (le_trans (Nat.le_add_right s.pos 2)
      (palette_run_pos scaled _ _ _ ⟨s.data, s.pos + 2⟩)) (ih _ _ _)

lemma color_chunk_pos (sp : Sprite) (frame : Nat) (s : AseStream) :
    s.pos ≤ (ase_file_read_color_chunk sp frame s).2.pos := by
  have hkey : (ase_file_read_color_chunk sp frame s).2 =
      (ase_palette_read_packets true (fgetw s).1 0
        { sp.getPalette frame with frame := frame } ⟨s.data, s.pos + 2⟩).2 := rfl
  rw [hkey]
  exact le_trans (Nat.le_add_right s.pos 2)
    (palette_packets_pos true _ _ _ ⟨s.data, s.pos + 2⟩)

lemma color2_chunk_pos (sp : Sprite) (frame : Nat) (s : AseStream) :
    s.pos ≤ (ase_file_read_color2_chunk sp frame s).2.pos := by
  have hkey : (ase_file_read_color2_chunk sp frame s).2 =
      (ase_palette_read_packets false (fgetw s).1 0
        { sp.getPalette frame with frame := frame } ⟨s.data, s.pos + 2⟩).2 := rfl
  rw [hkey]
  exact le_trans (Nat.le_add_right s.pos 2)
    (palette_packets_pos false _ _ _ ⟨s.data, s.pos + 2⟩)

lemma mask_bytes_pos : ∀ (n : Nat) (s : AseStream),
    s.pos ≤ (ase_file_read_mask_bytes n s).2.pos := by
  intro n
  induction n with
  | zero => intro s; exact le_rfl
  | succ m ih =>
    intro s
    have hkey : (ase_file_read_mask_bytes (m + 1) s).2 =
        (ase_file_read_mask_bytes m ⟨s.data, s.pos + 1⟩).2 := rfl
    rw [hkey]
    exact le_trans (Nat.le_add_right s.pos 1) (ih ⟨s.data, s.pos + 1⟩)

lemma mask_pos (s : AseStream) : s.pos ≤ (ase_file_read_mask_chunk s).2.pos := by
  have hkey : (ase_file_read_mask_chunk s).2 =
      (ase_file_read_mask_bytes
        ((fgetw ⟨s.data, s.pos + 6⟩).1 *
          (((fgetw ⟨s.data, s.pos + 4⟩).1 + 7) / 8))
        (ase_file_read_string ⟨s.data, s.pos + 16⟩).2).2 := rfl
  rw [hkey]
  exact le_trans
    (le_trans (Nat.le_add_right s.pos 16)
      (read_string_pos ⟨s.data, s.pos + 16⟩))
    (mask_bytes_pos _ (ase_file_read_string ⟨s.data, s.pos + 16⟩).2)

lemma layer_pos (sp : Sprite) (ll : Nat) (cl : Int) (s : AseStream) :
    s.pos ≤ (ase_file_read_layer_chunk sp ll cl s).2.2.2.pos := by
  rw [layer_chunk_key]
  split
  · exact le_trans (Nat.le_add_right s.pos 16)
      (read_string_pos ⟨s.data, s.pos + 16⟩)
  · exact le_trans (Nat.le_add_right s.pos 16)
      (read_string_pos ⟨s.data, s.pos + 16⟩)

/-! ### Report behaviour of the pixel readers and chunk handlers -/

lemma read_raw_rows_pspec (fmt : PixelFormat) (w : Nat) : ∀ (h : Nat)
    (st : LoadState) (s : AseStream),
    PSpec st (read_raw_rows fmt w h st s).2.1 s.pos
      (read_raw_rows fmt w h st s).2.2.pos := by
  intro h
  induction h with
  | zero => intro st s; exact pspec_nil le_rfl
  | succ n ih =>
    intro st s
    have hkey : (read_raw_rows fmt w (n + 1) st s).2 =
        (read_raw_rows fmt w n (st.report (read_raw_row fmt w s).2.pos)
          (read_raw_row fmt w s).2).2 := rfl
    rw [hkey]
    have h1 : PSpec st (st.report (read_raw_row fmt w s).2.pos) s.pos
        (read_raw_row fmt w s).2.pos :=
      pspec_report st (read_raw_row_pos fmt w s)
    exact pspec_comp h1 (ih _ _)

lemma read_blocks_pspec (ce : Nat) : ∀ (fuel : Nat) (st : LoadState)
    (s : AseStream),
    PSpec st (read_compressed_blocks ce fuel st s).1 s.pos
      (read_compressed_blocks ce fuel st s).2.pos := by
  intro fuel
  induction fuel with
  | zero => intro st s; exact pspec_nil le_rfl
  | succ n ih =>
    intro st s
    simp only [read_compressed_blocks]
    split
    · split
      · exact pspec_nil le_rfl
      · exact pspec_comp (pspec_report st (Nat.le_add_right _ _)) (ih _ _)
    · split
      · exact pspec_nil le_rfl
      · exact pspec_comp (pspec_report st (Nat.le_add_right _ _)) (ih _ _)

lemma read_compressed_pspec (zinf : List Nat → Option (List Nat))
    (fmt : PixelFormat) (img : Image) (ce : Nat) (st : LoadState)
    (s : AseStream) :
    PSpec st (read_compressed_image zinf fmt img ce st s).2.2.1 s.pos
      (read_compressed_image zinf fmt img ce st s).2.2.2.pos := by
  rw [read_compressed_key]
  split
  · exact read_blocks_pspec ce _ st s
  · exact read_blocks_pspec ce _ st s

lemma payload_pspec (zinf : List Nat → Option (List Nat)) (fmt : PixelFormat)
    (ce : Nat) (st : LoadState) (s : AseStream) (li : Nat) (cel : Cel)
    (ct : Nat) :
    PSpec st (ase_file_read_cel_payload zinf fmt ce st s li cel ct).2.1 s.pos
      (ase_file_read_cel_payload zinf fmt ce st s li cel ct).2.2.pos := by
  by_cases h0 : ct = ASE_FILE_RAW_CEL
  · subst h0
    rw [payload_raw_key]
    split
    · have base : PSpec st (rawReadAt fmt st s).2.1 s.pos
          (rawReadAt fmt st s).2.2.pos := by
        have h4 := read_raw_rows_pspec fmt
          (Image.create fmt (fgetw s).1 (fgetw ⟨s.data, s.pos + 2⟩).1).w
          (Image.create fmt (fgetw s).1 (fgetw ⟨s.data, s.pos + 2⟩).1).h st
          ⟨s.data, s.pos + 4⟩
        exact pspec_mono (Nat.le_add_right s.pos 4) le_rfl h4
      exact pspec_congr base rfl rfl
    · exact pspec_congr (pspec_nil (Nat.le_add_right s.pos 4)) rfl rfl
  by_cases h1 : ct = ASE_FILE_LINK_CEL
  · subst h1
    rw [payload_link_key]
    split
    · exact pspec_congr (pspec_nil (Nat.le_add_right s.pos 2)) rfl rfl
    · exact pspec_nil (Nat.le_add_right s.pos 2)
  by_cases h2 : ct = ASE_FILE_COMPRESSED_CEL
  · subst h2
    rw [payload_comp_key]
    split
    · have base : PSpec st (compReadAt zinf fmt ce st s).2.2.1 s.pos
          (compReadAt zinf fmt ce st s).2.2.2.pos := by
        have h4 := read_compressed_pspec zinf fmt
          (Image.create fmt (fgetw s).1 (fgetw ⟨s.data, s.pos + 2⟩).1) ce st
          ⟨s.data, s.pos + 4⟩
        exact pspec_mono (Nat.le_add_right s.pos 4) le_rfl h4
      refine pspec_congr base ?_ ?_
      · have hc : ∀ b : Bool,
            (if b = true then (compReadAt zinf fmt ce st s).2.2.1
             else (compReadAt zinf fmt ce st s).2.2.1.warn
               "ZLib error in inflate().").progress =
            (compReadAt zinf fmt ce st s).2.2.1.progress := by
          intro b; cases b <;> rfl
        show (if (compReadAt zinf fmt ce st s).2.1 = true then
            (compReadAt zinf fmt ce st s).2.2.1
          else (compReadAt zinf fmt ce st s).2.2.1.warn
            "ZLib error in inflate().").progress = _
        exact hc _
      · have hc : ∀ b : Bool,
            (if b = true then (compReadAt zinf fmt ce st s).2.2.1
             else (compReadAt zinf fmt ce st s).2.2.1.warn
               "ZLib error in inflate().").fwd =
            (compReadAt zinf fmt ce st s).2.2.1.fwd := by
          intro b; cases b <;> rfl
        show (if (compReadAt zinf fmt ce st s).2.1 = true then
            (compReadAt zinf fmt ce st s).2.2.1
          else (compReadAt zinf fmt ce st s).2.2.1.warn
            "ZLib error in inflate().").fwd = _
        exact hc _
    · exact pspec_congr (pspec_nil (Nat.le_add_right s.pos 4)) rfl rfl
  · rw [payload_other_key zinf fmt ce st s li cel ct h0 h1 h2]
    exact pspec_congr (pspec_nil le_rfl) rfl rfl

lemma cel_chunk_pspec (zinf : List Nat → Option (List Nat)) (frame : Nat)
    (fmt : PixelFormat) (ce : Nat) (st : LoadState) (s : AseStream) :
    PSpec st (ase_file_read_cel_chunk zinf frame fmt ce st s).2.1 s.pos
      (ase_file_read_cel_chunk zinf frame fmt ce st s).2.2.pos := by
  rw [cel_chunk_key]
  split
  · exact pspec_plain rfl rfl (Nat.le_add_right s.pos 16)
  · split
    · exact pspec_plain rfl rfl (Nat.le_add_right s.pos 16)
    · exact pspec_mono (Nat.le_add_right s.pos 16) le_rfl
        (payload_pspec zinf fmt ce st ⟨s.data, s.pos + 16⟩ _ _ _)

lemma dispatch_pspec (zinf : List Nat → Option (List Nat))
    (frame ct ce : Nat) (st : LoadState) (s : AseStream) :
    PSpec st (ase_dispatch_chunk zinf frame ct ce st s).1 s.pos
      (ase_dispatch_chunk zinf frame ct ce st s).2.pos := by
  unfold ase_dispatch_chunk
  split
  · split
    · dsimp only
      refine pspec_plain ?_ ?_ ?_
      · split <;> split <;> rfl
      · split <;> split <;> rfl
      · split
        · exact color_chunk_pos _ _ _
        · exact color2_chunk_pos _ _ _
    · exact pspec_plain rfl rfl le_rfl
  · split
    · exact pspec_plain rfl rfl (layer_pos _ _ _ _)
    · split
      · exact cel_chunk_pspec zinf frame _ ce st s
      · split
        · exact pspec_plain rfl rfl (mask_pos s)
        · split
          · exact pspec_nil le_rfl
          · exact pspec_plain rfl rfl le_rfl

/-! ### The driver's seeks, conditioned on the forward flag -/

/-- The dispatch call made by one chunk iteration, as a function of the
iteration's starting stream. -/
def dispAt (zinf : List Nat → Option (List Nat)) (frame : Nat)
    (st : LoadState) (s : AseStream) : LoadState × AseStream :=
  ase_dispatch_chunk zinf frame (fgetw ⟨s.data, s.pos + 4⟩).1
    (s.pos + (fgetl s).1) (st.report s.pos) ⟨s.data, s.pos + 6⟩

lemma ase_read_chunk_key (zinf : List Nat → Option (List Nat)) (frame : Nat)
    (st : LoadState) (s : AseStream) :
    ase_read_chunk zinf frame st s =
      ({ (dispAt zinf frame st s).1 with
          fwd := (dispAt zinf frame st s).1.fwd &&
            decide ((dispAt zinf frame st s).2.pos ≤ s.pos + (fgetl s).1) },
       fseekSet (dispAt zinf frame st s).2 (s.pos + (fgetl s).1)) := rfl

lemma chunk_pspec (zinf : List Nat → Option (List Nat)) (frame : Nat)
    (st : LoadState) (s : AseStream)
    (h : (ase_read_chunk zinf frame st s).1.fwd = true) :
    st.fwd = true ∧
      ∃ ps, (ase_read_chunk zinf frame st s).1.progress = st.progress ++ ps ∧
        Brkt s.pos ps (ase_read_chunk zinf frame st s).2.pos := by
  rw [ase_read_chunk_key] at h ⊢
  dsimp only at h ⊢
  rw [Bool.and_eq_true, decide_eq_true_eq] at h
  obtain ⟨hfw, hle⟩ := h
  have hd : PSpec (st.report s.pos) (dispAt zinf frame st s).1 (s.pos + 6)
      (dispAt zinf frame st s).2.pos :=
    dispatch_pspec zinf frame (fgetw ⟨s.data, s.pos + 4⟩).1
      (s.pos + (fgetl s).1) (st.report s.pos) ⟨s.data, s.pos + 6⟩
  obtain ⟨hdf, ps, hp, hb⟩ := hd
  refine ⟨hdf.symm.trans hfw, s.pos :: ps, ?_, ?_⟩
  · rw [hp]
    show (st.progress ++ [s.pos]) ++ ps = _
    rw [List.append_assoc]
    rfl
  · exact brkt_cons le_rfl (brkt_mono (Nat.le_add_right s.pos 6) hle hb)

lemma chunks_pspec (zinf : List Nat → Option (List Nat)) (frame : Nat) :
    ∀ (n : Nat) (st : LoadState) (s : AseStream),
    (ase_read_chunks zinf frame n st s).1.fwd = true →
    st.fwd = true ∧
      ∃ ps, (ase_read_chunks zinf frame n st s).1.progress =
          st.progress ++ ps ∧
        Brkt s.pos ps (ase_read_chunks zinf frame n st s).2.pos := by
  intro n
  induction n with
  | zero =>
    intro st s h
    exact ⟨h, [], (List.append_nil st.progress).symm, brkt_nil le_rfl⟩
  | succ m ih =>
    intro st s h
    have hkey : ase_read_chunks zinf frame (m + 1) st s =
        ase_read_chunks zinf frame m (ase_read_chunk zinf frame st s).1
          (ase_read_chunk zinf frame st s).2 := rfl
    rw [hkey] at h ⊢
    obtain ⟨h1f, ps2, hp2, hb2⟩ := ih _ _ h
    obtain ⟨h0f, ps1, hp1, hb1⟩ := chunk_pspec zinf frame st s h1f
    exact ⟨h0f, ps1 ++ ps2, by rw [hp2, hp1, List.append_assoc],
      brkt_comp hb1 hb2⟩

lemma frame_header_pos (s : AseStream) :
    (ase_file_read_frame_header s).2.pos = s.pos + 16 := rfl

/-- The body of one frame iteration before the closing seek: report the
frame position, then (on a magic match) apply the duration and run the
chunk loop. -/
def frameBody (zinf : List Nat → Option (List Nat)) (frame : Nat)
    (st : LoadState) (s : AseStream) : LoadState × AseStream :=
  if (ase_file_read_frame_header s).1.magic = ASE_FILE_FRAME_MAGIC then
    ase_read_chunks zinf frame (ase_file_read_frame_header s).1.chunks
      (if 0 < (ase_file_read_frame_header s).1.duration then
        { st.report s.pos with sprite :=
            ((st.report s.pos).sprite.setFrameDuration frame
              (ase_file_read_frame_header s).1.duration) }
       else st.report s.pos)
      (ase_file_read_frame_header s).2
  else (st.report s.pos, (ase_file_read_frame_header s).2)

lemma ase_read_frame_key (zinf : List Nat → Option (List Nat)) (frame : Nat)
    (st : LoadState) (s : AseStream) :
    ase_read_frame zinf frame st s =
      ({ (frameBody zinf frame st s).1 with
          fwd := (frameBody zinf frame st s).1.fwd &&
            decide ((frameBody zinf frame st s).2.pos ≤
              s.pos + (ase_file_read_frame_header s).1.size) },
       fseekSet (frameBody zinf frame st s).2
         (s.pos + (ase_file_read_frame_header s).1.size)) := rfl

lemma frameBody_pspec (zinf : List Nat → Option (List Nat)) (frame : Nat)
    (st : LoadState) (s : AseStream)
    (h : (frameBody zinf frame st s).1.fwd = true) :
    st.fwd = true ∧
      ∃ ps, (frameBody zinf frame st s).1.progress = st.progress ++ ps ∧
        Brkt s.pos ps (frameBody zinf frame st s).2.pos := by
  unfold frameBody at h ⊢
  by_cases hm : (ase_file_read_frame_header s).1.magic = ASE_FILE_FRAME_MAGIC
  · rw [if_pos hm] at h ⊢
    by_cases hd : 0 < (ase_file_read_frame_header s).1.duration
    · rw [if_pos hd] at h ⊢
      obtain ⟨h1f, ps2, hp2, hb2⟩ := chunks_pspec zinf frame _ _ _ h
      refine ⟨h1f, s.pos :: ps2, ?_, ?_⟩
      · rw [hp2]
        show (st.progress ++ [s.pos]) ++ ps2 = _
        rw [List.append_assoc]
        rfl
      · rw [frame_header_pos] at hb2
        exact brkt_cons le_rfl
          (brkt_mono (Nat.le_add_right s.pos 16) le_rfl hb2)
    · rw [if_neg hd] at h ⊢
      obtain ⟨h1f, ps2, hp2, hb2⟩ := chunks_pspec zinf frame _ _ _ h
      refine ⟨h1f, s.pos :: ps2, ?_, ?_⟩
      · rw [hp2]
        show (st.progress ++ [s.pos]) ++ ps2 = _
        rw [List.append_assoc]
        rfl
      · rw [frame_header_pos] at hb2
        exact brkt_cons le_rfl
          (brkt_mono (Nat.le_add_right s.pos 16) le_rfl hb2)
  · rw [if_neg hm] at h ⊢
    refine ⟨h, [s.pos], rfl, ?_⟩
    rw [frame_header_pos]
    exact brkt_cons le_rfl (brkt_nil (Nat.le_add_right s.pos 16))

lemma frame_pspec (zinf : List Nat → Option (List Nat)) (frame : Nat)
    (st : LoadState) (s : AseStream)
    (h : (ase_read_frame zinf frame st s).1.fwd = true) :
    st.fwd = true ∧
      ∃ ps, (ase_read_frame zinf frame st s).1.progress = st.progress ++ ps ∧
        Brkt s.pos ps (ase_read_frame zinf frame st s).2.pos := by
  rw [ase_read_frame_key] at h ⊢
  dsimp only at h ⊢
  rw [Bool.and_eq_true, decide_eq_true_eq] at h
  obtain ⟨hbf, hle⟩ := h
  obtain ⟨h0, ps, hp, hb⟩ := frameBody_pspec zinf frame st s hbf
  exact ⟨h0, ps, hp, brkt_mono le_rfl hle hb⟩

lemma frames_pspec (zinf : List Nat → Option (List Nat)) (cfg : FileOpCfg) :
    ∀ (l : List Nat) (st : LoadState) (s : AseStream),
    (ase_read_frames zinf cfg l st s).1.fwd = true →
    st.fwd = true ∧
      ∃ ps, (ase_read_frames zinf cfg l st s).1.progress =
          st.progress ++ ps ∧
        Brkt s.pos ps (ase_read_frames zinf cfg l st s).2.pos := by
  intro l
  induction l with
  | nil =>
    intro st s h
    exact ⟨h, [], (List.append_nil st.progress).symm, brkt_nil le_rfl⟩
  | cons f rest ih =>
    intro st s h
    have hkey : ase_read_frames zinf cfg (f :: rest) st s =
        if cfg.oneframe = true then ase_read_frame zinf f st s
        else if cfg.stop f = true then ase_read_frame zinf f st s
        else ase_read_frames zinf cfg rest (ase_read_frame zinf f st s).1
          (ase_read_frame zinf f st s).2 := rfl
    rw [hkey] at h ⊢
    by_cases h1 : cfg.oneframe = true
    · rw [if_pos h1] at h ⊢
      exact frame_pspec zinf f st s h
    · rw [if_neg h1] at h ⊢
      by_cases h2 : cfg.stop f = true
      · rw [if_pos h2] at h ⊢
        exact frame_pspec zinf f st s h
      · rw [if_neg h2] at h ⊢
        obtain ⟨hmf, ps2, hp2, hb2⟩ := ih _ _ h
        obtain ⟨h0, ps1, hp1, hb1⟩ := frame_pspec zinf f st s hmf
        exact ⟨h0, ps1 ++ ps2, by rw [hp2, hp1, List.append_assoc],
          brkt_comp hb1 hb2⟩

/-- The `LoadState` `AseFormat::onLoad` builds from an accepted header
before entering the frame loop. -/
def initLoad (hd : ASE_Header) : LoadState :=
  ⟨{ ((Sprite.new
        (if hd.depth = 32 then .rgb
         else if hd.depth = 16 then .grayscale else .indexed)
        hd.width hd.height hd.ncolors).setTotalFrames
        hd.frames).setDurationForAllFrames hd.speed with
      transparentColor := hd.transparent_index },
    0, -1, [], [], true⟩

lemma onLoad_key (zinf : List Nat → Option (List Nat)) (cfg : FileOpCfg)
    (s : AseStream) :
    AseFormat.onLoad zinf cfg s =
      match ase_file_read_header s with
      | none => none
      | some p => some (ase_read_frames zinf cfg
          (List.range (initLoad p.1).sprite.totalFrames) (initLoad p.1)
          p.2) := by
  unfold AseFormat.onLoad
  cases ase_file_read_header s with
  | none => rfl
  | some p => rfl

lemma onLoad_progress_chain (zinf : List Nat → Option (List Nat))
    (cfg : FileOpCfg) (s : AseStream) (st : LoadState) (s' : AseStream)
    (h : AseFormat.onLoad zinf cfg s = some (st, s')) (hf : st.fwd = true) :
    List.Chain' (· ≤ ·) st.progress := by
  rw [onLoad_key] at h
  cases hh : ase_file_read_header s with
  | none =>
    rw [hh] at h
    exact absurd h (by simp)
  | some p =>
    rw [hh] at h
    injection h with hpair
    have hfw : (ase_read_frames zinf cfg
        (List.range (initLoad p.1).sprite.totalFrames) (initLoad p.1)
        p.2).1.fwd = true := by
      rw [hpair]; exact hf
    obtain ⟨-, ps, hp, hb⟩ := frames_pspec zinf cfg _ _ _ hfw
    have h1 := congrArg (fun q : LoadState × AseStream => q.1.progress) hpair
    dsimp only at h1
    rw [hp] at h1
    rw [show (initLoad p.1).progress = [] from rfl, List.nil_append] at h1
    rw [← h1]
    exact brkt_chain hb

/-! ### Streams exercising the progress reports -/

/-- A 150-byte document whose header declares `size = 1000` and two
frames; the first frame header declares `size = 0` but one chunk, so the
closing frame seek jumps backwards over the chunk that was just read. -/
def dataC9 : List Nat :=
  [232, 3, 0, 0, 224, 165, 2, 0, 4, 0, 4, 0, 8, 0, 0, 0, 0, 0, 100, 0] ++
  List.replicate 108 0 ++
  [0, 0, 0, 0, 250, 241, 1, 0, 0, 0] ++ List.replicate 12 0

/-- A minimal well-formed 144-byte document: one frame whose declared
frame size (16) matches the bytes consumed, so every driver seek moves
forward. -/
def dataW9 : List Nat :=
  [0, 0, 0, 0, 224, 165, 1, 0, 1, 0, 1, 0, 8, 0, 0, 0, 0, 0, 100, 0] ++
  List.replicate 108 0 ++
  [16, 0, 0, 0, 250, 241, 0, 0, 0, 0] ++ List.replicate 6 0

/-- The result of loading `dataW9`. -/
def outW9 : LoadState × AseStream :=
  (AseFormat.onLoad (fun _ => some []) ⟨false, fun _ => false⟩
      ⟨dataW9, 0⟩).getD
    (⟨Sprite.new .indexed 0 0 0, 0, -1, [], [], true⟩, ⟨dataW9, 0⟩)

/-! ## Claims -/

/-- A small sprite/state used to instantiate theorems with hypotheses on
concrete inputs. -/
def spW : Sprite := Sprite.new .indexed 4 4 16

/-- Its load-driver state, as at the start of the frame loop. -/
def stW : LoadState := ⟨spW, 0, -1, [], [], true⟩

/-- **C4.** Reading the document header fails exactly when the stored
16-bit magic (the little-endian word at offset 4) differs from 0xA5E0,
and in that case the whole load aborts hard: `onLoad` produces nothing —
no sprite, no frame, no chunk is processed. -/
theorem header_magic_gate (zinf : List Nat → Option (List Nat))
    (cfg : FileOpCfg) (s : AseStream) (h : s.pos + 6 ≤ s.data.length) :
    (ase_file_read_header s = none ↔
      wordAt s.data (s.pos + 4) ≠ ASE_FILE_MAGIC) ∧
    (wordAt s.data (s.pos + 4) ≠ ASE_FILE_MAGIC →
      AseFormat.onLoad zinf cfg s = none) := by
  have hmagic : (fgetw (fgetl s).2).1 = wordAt s.data (s.pos + 4) := rfl
  have hkey : ase_file_read_header s =
      if (fgetw (fgetl s).2).1 ≠ ASE_FILE_MAGIC then none
      else some (ase_file_read_header_rest s.pos (fgetl s).1
        (fgetw (fgetl s).2).1 (fgetw (fgetl s).2).2) := rfl
  rw [hmagic] at hkey
  constructor
  · rw [hkey]
    split
    · simp_all
    · simp_all
  · intro hne
    unfold AseFormat.onLoad
    rw [hkey]
    simp [hne]

/-- Witness for `header_magic_gate` at a six-byte stream of zeros. -/
theorem header_magic_gate_witness :
    (ase_file_read_header ⟨[0, 0, 0, 0, 0, 0], 0⟩ = none ↔
      wordAt [0, 0, 0, 0, 0, 0] (0 + 4) ≠ ASE_FILE_MAGIC) ∧
    (wordAt [0, 0, 0, 0, 0, 0] (0 + 4) ≠ ASE_FILE_MAGIC →
      AseFormat.onLoad (fun _ => none) ⟨false, fun _ => false⟩
        ⟨[0, 0, 0, 0, 0, 0], 0⟩ = none) :=
  header_magic_gate (fun _ => none) ⟨false, fun _ => false⟩
    ⟨[0, 0, 0, 0, 0, 0], 0⟩ (by decide)

/-- **C2.** After one chunk-loop iteration — whatever the dispatched
handler did to the cursor — the stream's cursor is exactly
`chunk_start + declared_length` (the chunk start plus the 32-bit length
read there), and the next iteration of the chunk loop reads the next
chunk header from exactly that stream, for every state, stream, handler
outcome and chunk count. -/
theorem chunk_boundary_resync (zinf : List Nat → Option (List Nat))
    (frame c : Nat) (st : LoadState) (s : AseStream) :
    (ase_read_chunk zinf frame st s).2.pos = s.pos + (fgetl s).1 ∧
    ase_read_chunks zinf frame (c + 1) st s =
      ase_read_chunks zinf frame c (ase_read_chunk zinf frame st s).1
        (ase_read_chunk zinf frame st s).2 :=
  ⟨rfl, rfl⟩

/-- **C8.** Dispatching a chunk whose type code is none of the known six
leaves everything — the sprite (layer tree, cels, images, palettes,
durations), the layer-builder's `last_layer`/`current_level`, the
progress trace and the stream — unchanged except for one appended
warning; the driver then skips the chunk via its declared length. -/
theorem unknown_chunk_inert (zinf : List Nat → Option (List Nat))
    (frame chunk_type chunk_end : Nat) (st : LoadState) (s : AseStream)
    (h1 : chunk_type ≠ ASE_FILE_CHUNK_FLI_COLOR)
    (h2 : chunk_type ≠ ASE_FILE_CHUNK_FLI_COLOR2)
    (h3 : chunk_type ≠ ASE_FILE_CHUNK_LAYER)
    (h4 : chunk_type ≠ ASE_FILE_CHUNK_CEL)
    (h5 : chunk_type ≠ ASE_FILE_CHUNK_MASK)
    (h6 : chunk_type ≠ ASE_FILE_CHUNK_PATH) :
    ase_dispatch_chunk zinf frame chunk_type chunk_end st s =
      ({ st with errors :=
          st.errors ++ ["Warning: Unsupported chunk type (skipping)"] }, s) ∧
    (ase_dispatch_chunk zinf frame chunk_type chunk_end st s).1.sprite =
      st.sprite ∧
    (ase_dispatch_chunk zinf frame chunk_type chunk_end st s).1.lastLayer =
      st.lastLayer ∧
    (ase_dispatch_chunk zinf frame chunk_type chunk_end st s).1.currentLevel =
      st.currentLevel ∧
    (ase_read_chunk zinf frame st s).2.pos =
      s.pos + (fgetl s).1 := by
  have hd : ase_dispatch_chunk zinf frame chunk_type chunk_end st s =
      ({ st with errors :=
          st.errors ++ ["Warning: Unsupported chunk type (skipping)"] }, s) := by
    simp [ase_dispatch_chunk, h1, h2, h3, h4, h5, h6, LoadState.warn]
  exact ⟨hd, by rw [hd], by rw [hd], by rw [hd], rfl⟩

/-- Witness for `unknown_chunk_inert` at type code 0x9999. -/
theorem unknown_chunk_inert_witness :
    ase_dispatch_chunk (fun _ => none) 0 0x9999 50 stW ⟨[], 44⟩ =
      ({ stW with errors :=
          stW.errors ++ ["Warning: Unsupported chunk type (skipping)"] },
        (⟨[], 44⟩ : AseStream)) ∧
    (ase_dispatch_chunk (fun _ => none) 0 0x9999 50 stW ⟨[], 44⟩).1.sprite =
      stW.sprite ∧
    (ase_dispatch_chunk (fun _ => none) 0 0x9999 50 stW ⟨[], 44⟩).1.lastLayer =
      stW.lastLayer ∧
    (ase_dispatch_chunk (fun _ => none) 0 0x9999 50 stW
        ⟨[], 44⟩).1.currentLevel = stW.currentLevel ∧
    (ase_read_chunk (fun _ => none) 0 stW ⟨[], 44⟩).2.pos =
      44 + (fgetl ⟨[], 44⟩).1 :=
  unknown_chunk_inert (fun _ => none) 0 0x9999 50 stW ⟨[], 44⟩
    (by decide) (by decide) (by decide) (by decide) (by decide) (by decide)

/-- **C6.** Palette chunk decoding: each packet advances the running
index (starting at 0) by its skip byte and writes `size` consecutive RGB
entries there, a size byte of 0 denoting 256.  A single packet with
skip 0 and size byte 0 over a 256-entry palette sets exactly entries
0 through 255 from the following RGB triples (the palette keeps length
256), every decoded entry is fully opaque, and a two-packet example
shows the skip bytes accumulating into the running index. -/
theorem palette_packet_expansion (sp : Sprite) (frame : Nat) (s : AseStream)
    (hpk : wordAt s.data s.pos = 1)
    (hskip : byteAt s.data (s.pos + 2) = 0)
    (hsz : byteAt s.data (s.pos + 3) = 0)
    (hlen : (sp.getPalette frame).entries.length = 256) :
    (∀ i, i < 256 →
      (ase_file_read_color2_chunk sp frame s).1.entries.getD i 0 =
        rgba (byteAt s.data (s.pos + 4 + 3 * i))
          (byteAt s.data (s.pos + 4 + 3 * i + 1))
          (byteAt s.data (s.pos + 4 + 3 * i + 2)) 255) ∧
    (ase_file_read_color2_chunk sp frame s).1.entries.length = 256 ∧
    (∀ (sp₂ : Sprite) (f₂ : Nat) (s₂ : AseStream) (i : Nat),
      (ase_file_read_color2_chunk sp₂ f₂ s₂).1.entries.getD i 0 =
        (sp₂.getPalette f₂).entries.getD i 0 ∨
      rgbaGeta ((ase_file_read_color2_chunk sp₂ f₂ s₂).1.entries.getD i 0)
        = 255) ∧
    ((ase_file_read_color2_chunk spW 0
        ⟨[2, 0, 1, 1, 10, 20, 30, 2, 1, 40, 50, 60], 0⟩).1.entries.getD 1 0 =
      rgba 10 20 30 255 ∧
     (ase_file_read_color2_chunk spW 0
        ⟨[2, 0, 1, 1, 10, 20, 30, 2, 1, 40, 50, 60], 0⟩).1.entries.getD 3 0 =
      rgba 40 50 60 255 ∧
     (ase_file_read_color2_chunk spW 0
        ⟨[2, 0, 1, 1, 10, 20, 30, 2, 1, 40, 50, 60], 0⟩).1.entries.getD 2 0 =
      rgba 0 0 0 255) := by
  have hunfold : ase_file_read_color2_chunk sp frame s =
      ase_palette_read_packets false (wordAt s.data s.pos) 0
        { sp.getPalette frame with frame := frame } ⟨s.data, s.pos + 2⟩ := rfl
  have hzero : ∀ (skip : Nat) (pal : Palette) (s₂ : AseStream),
      ase_palette_read_packets false 0 skip pal s₂ = (pal, s₂) :=
    fun _ _ _ => rfl
  refine ⟨?_, ?_, ?_, ?_⟩
  · intro i hi
    rw [hunfold, hpk, palette_packets_unfold]
    rw [show (⟨s.data, s.pos + 2⟩ : AseStream).pos = s.pos + 2 from rfl]
    rw [hskip]
    rw [show s.pos + 2 + 1 = s.pos + 3 from rfl, hsz]
    rw [hzero]
    rw [show (if (0 : Nat) = 0 then 256 else 0) = 256 from rfl]
    rw [palette_run_getD]
    rw [if_pos ⟨by omega, by omega, by
      show i < ({ sp.getPalette frame with frame := frame } : Palette).entries.length
      simpa [hlen] using hi⟩]
    rw [show s.pos + 2 + 2 + 3 * (i - (0 + 0)) = s.pos + 4 + 3 * i from by omega]
    rfl
  · rw [hunfold]
    rw [palette_packets_length]
    simpa using hlen
  · intro sp₂ f₂ s₂ i
    have h2 : ase_file_read_color2_chunk sp₂ f₂ s₂ =
        ase_palette_read_packets false (wordAt s₂.data s₂.pos) 0
          { sp₂.getPalette f₂ with frame := f₂ } ⟨s₂.data, s₂.pos + 2⟩ := rfl
    rw [h2]
    exact palette_packets_alpha false _ _ _ _ i
  · refine ⟨by decide, by decide, by decide⟩

set_option maxRecDepth 8192 in
/-- Witness for `palette_packet_expansion`: a one-packet skip-0/size-0
chunk over the 256-entry palette of a fresh indexed sprite. -/
theorem palette_packet_expansion_witness :
    (∀ i, i < 256 →
      (ase_file_read_color2_chunk (Sprite.new .indexed 4 4 256) 0
          ⟨[1, 0, 0, 0] ++ List.replicate 768 7, 0⟩).1.entries.getD i 0 =
        rgba (byteAt ([1, 0, 0, 0] ++ List.replicate 768 7) (0 + 4 + 3 * i))
          (byteAt ([1, 0, 0, 0] ++ List.replicate 768 7) (0 + 4 + 3 * i + 1))
          (byteAt ([1, 0, 0, 0] ++ List.replicate 768 7) (0 + 4 + 3 * i + 2))
          255) ∧
    (ase_file_read_color2_chunk (Sprite.new .indexed 4 4 256) 0
        ⟨[1, 0, 0, 0] ++ List.replicate 768 7, 0⟩).1.entries.length = 256 ∧
    (∀ (sp₂ : Sprite) (f₂ : Nat) (s₂ : AseStream) (i : Nat),
      (ase_file_read_color2_chunk sp₂ f₂ s₂).1.entries.getD i 0 =
        (sp₂.getPalette f₂).entries.getD i 0 ∨
      rgbaGeta ((ase_file_read_color2_chunk sp₂ f₂ s₂).1.entries.getD i 0)
        = 255) ∧
    ((ase_file_read_color2_chunk spW 0
        ⟨[2, 0, 1, 1, 10, 20, 30, 2, 1, 40, 50, 60], 0⟩).1.entries.getD 1 0 =
      rgba 10 20 30 255 ∧
     (ase_file_read_color2_chunk spW 0
        ⟨[2, 0, 1, 1, 10, 20, 30, 2, 1, 40, 50, 60], 0⟩).1.entries.getD 3 0 =
      rgba 40 50 60 255 ∧
     (ase_file_read_color2_chunk spW 0
        ⟨[2, 0, 1, 1, 10, 20, 30, 2, 1, 40, 50, 60], 0⟩).1.entries.getD 2 0 =
      rgba 0 0 0 255) :=
  palette_packet_expansion (Sprite.new .indexed 4 4 256) 0
    ⟨[1, 0, 0, 0] ++ List.replicate 768 7, 0⟩
    (by decide) (by decide) (by decide) (by decide)

/-- An 18-byte layer chunk body: zero flags, the given kind and nesting
level, zero default width/height and blend mode, and an empty name. -/
def layerChunkStream (layer_type child_level : Nat) : AseStream :=
  ⟨[0, 0, layer_type, 0, child_level, 0, 0, 0, 0, 0, 0, 0, 0, 0, 0, 0, 0, 0], 0⟩

/-- Three nested folders: levels 0, 1, 2 under the root of `spW`. -/
def c1Step1 : Sprite × Nat × Int × AseStream :=
  ase_file_read_layer_chunk spW 0 (-1) (layerChunkStream 1 0)

/-- Second record: a folder at level 1. -/
def c1Step2 : Sprite × Nat × Int × AseStream :=
  ase_file_read_layer_chunk c1Step1.1 c1Step1.2.1 c1Step1.2.2.1
    (layerChunkStream 1 1)

/-- Third record: a folder at level 2. -/
def c1Step3 : Sprite × Nat × Int × AseStream :=
  ase_file_read_layer_chunk c1Step2.1 c1Step2.2.1 c1Step2.2.2.1
    (layerChunkStream 1 2)

/-- Fourth record: an image layer at level 0 — a decrease of two levels. -/
def c1Step4 : Sprite × Nat × Int × AseStream :=
  ase_file_read_layer_chunk c1Step3.1 c1Step3.2.1 c1Step3.2.2.1
    (layerChunkStream 0 0)

/-- **C1.** Failing input for the layer-tree decrease rule: after three
folders at levels 0, 1, 2 (store indices 1, 2, 3), a record at level 0 —
a decrease of `previousLevel − L = 2` — is attached by the code under the
level-0 folder (store index 1, the fixed `getParent()->getParent()`
walk), whereas walking up 2 parent links from the previous layer and
attaching as that ancestor's sibling, as the claim prescribes, would
attach it under the root (store index 0).  The two targets differ, so
the code does not implement the claimed rule for decreases larger than
one level. -/
theorem layer_decrease_two_levels_diverges :
    (c1Step4.1.layers.getD 4 default).parent = 1 ∧
    specDecreaseParent c1Step3.1 c1Step3.2.1 c1Step3.2.2.1 0 = 0 ∧
    (c1Step4.1.layers.getD 4 default).parent ≠
      specDecreaseParent c1Step3.1 c1Step3.2.1 c1Step3.2.2.1 0 := by
  refine ⟨by decide, by decide, by decide⟩

/-- **C5.** A cel chunk whose layer index does not resolve to an existing
layer, or resolves to a layer that is not an image layer, produces no
cel: the sprite (cels, images, layers, palettes) is untouched, exactly
one warning is appended, no progress is consumed, and the driver seeks
to the declared chunk end so decoding continues with the next chunk. -/
theorem cel_bad_layer_ref_skipped (zinf : List Nat → Option (List Nat))
    (frame : Nat) (fmt : PixelFormat) (chunk_end : Nat) (st : LoadState)
    (s : AseStream)
    (h : st.sprite.indexToLayer (fgetw s).1 = none ∨
         ∃ li, st.sprite.indexToLayer (fgetw s).1 = some li ∧
           (st.sprite.layers.getD li default).isImage = false) :
    (ase_file_read_cel_chunk zinf frame fmt chunk_end st s).1 = none ∧
    (ase_file_read_cel_chunk zinf frame fmt chunk_end st s).2.1.sprite =
      st.sprite ∧
    (∃ m, (ase_file_read_cel_chunk zinf frame fmt chunk_end st s).2.1.errors =
      st.errors ++ [m]) ∧
    (ase_file_read_cel_chunk zinf frame fmt chunk_end st s).2.1.progress =
      st.progress ∧
    (ase_read_chunk zinf frame st s).2.pos = s.pos + (fgetl s).1 := by
  have hkey : ase_file_read_cel_chunk zinf frame fmt chunk_end st s =
      (match st.sprite.indexToLayer (fgetw s).1 with
       | none => (none, st.warn "Frame didn't found layer with index",
           (⟨s.data, s.pos + 16⟩ : AseStream))
       | some li =>
         if (st.sprite.layers.getD li default).isImage = false then
           (none,
            st.warn "Invalid .ase file (frame in layer which does not contain images",
            (⟨s.data, s.pos + 16⟩ : AseStream))
         else ase_file_read_cel_payload zinf fmt chunk_end st
           ⟨s.data, s.pos + 16⟩ li
           ⟨frame, toSigned16 (fgetw ⟨s.data, s.pos + 2⟩).1,
            toSigned16 (fgetw ⟨s.data, s.pos + 4⟩).1,
            (fgetc ⟨s.data, s.pos + 6⟩).1, 0⟩
           (fgetw ⟨s.data, s.pos + 7⟩).1) := rfl
  rcases h with h | ⟨li, hli, him⟩
  · rw [hkey]
    split
    · exact ⟨rfl, rfl, ⟨_, rfl⟩, rfl, rfl⟩
    · next li2 heq =>
      rw [h] at heq
      cases heq
  · rw [hkey]
    split
    · next heq =>
      rw [hli] at heq
      cases heq
    · next li2 heq =>
      rw [hli] at heq
      injection heq with h2
      subst h2
      rw [if_pos him]
      exact ⟨rfl, rfl, ⟨_, rfl⟩, rfl, rfl⟩

/-- Witness for `cel_bad_layer_ref_skipped`: a sprite with only the root
folder, so layer index 0 resolves to nothing. -/
theorem cel_bad_layer_ref_skipped_witness :
    (ase_file_read_cel_chunk (fun _ => none) 0 .indexed 30 stW ⟨[], 0⟩).1 =
      none ∧
    (ase_file_read_cel_chunk (fun _ => none) 0 .indexed 30 stW
        ⟨[], 0⟩).2.1.sprite = stW.sprite ∧
    (∃ m, (ase_file_read_cel_chunk (fun _ => none) 0 .indexed 30 stW
        ⟨[], 0⟩).2.1.errors = stW.errors ++ [m]) ∧
    (ase_file_read_cel_chunk (fun _ => none) 0 .indexed 30 stW
        ⟨[], 0⟩).2.1.progress = stW.progress ∧
    (ase_read_chunk (fun _ => none) 0 stW ⟨[], 0⟩).2.pos =
      0 + (fgetl ⟨[], 0⟩).1 :=
  cel_bad_layer_ref_skipped (fun _ => none) 0 .indexed 30 stW ⟨[], 0⟩
    (Or.inl (by decide))



/-- **C3.** Decoding a Linked cel that references frame N looks up frame
N's cel on the same layer and adds a brand-new image — a fresh stock
handle holding a full pixel copy — never the source handle itself, so
overwriting the new handle leaves the source image untouched; and when
no cel exists at frame N on that layer, the sprite gains nothing. -/
theorem linked_cel_copies (zinf : List Nat → Option (List Nat))
    (fmt : PixelFormat) (chunk_end : Nat) (st : LoadState) (s : AseStream)
    (li : Nat) (cel : Cel) (link : Cel)
    (hlink : st.sprite.getCel li (fgetw s).1 = some link)
    (hhandle : link.image < st.sprite.stock.length) :
    (ase_file_read_cel_payload zinf fmt chunk_end st s li cel
        ASE_FILE_LINK_CEL).1 =
      some { cel with image := st.sprite.stock.length } ∧
    st.sprite.stock.length ≠ link.image ∧
    (ase_file_read_cel_payload zinf fmt chunk_end st s li cel
        ASE_FILE_LINK_CEL).2.1.sprite.stock =
      st.sprite.stock ++
        [Image.createCopy (st.sprite.stock.getD link.image default)] ∧
    ((ase_file_read_cel_payload zinf fmt chunk_end st s li cel
        ASE_FILE_LINK_CEL).2.1.sprite.stock.getD st.sprite.stock.length
        default).pixels =
      (st.sprite.stock.getD link.image default).pixels ∧
    (∀ img2 : Image,
      (((ase_file_read_cel_payload zinf fmt chunk_end st s li cel
          ASE_FILE_LINK_CEL).2.1.sprite.stock.set st.sprite.stock.length
          img2).getD link.image default) =
        st.sprite.stock.getD link.image default) ∧
    (∀ s₂ : AseStream, st.sprite.getCel li (fgetw s₂).1 = none →
      (ase_file_read_cel_payload zinf fmt chunk_end st s₂ li cel
          ASE_FILE_LINK_CEL).1 = none ∧
      (ase_file_read_cel_payload zinf fmt chunk_end st s₂ li cel
          ASE_FILE_LINK_CEL).2.1.sprite = st.sprite) := by
  have hkey : ∀ s₃ : AseStream,
      ase_file_read_cel_payload zinf fmt chunk_end st s₃ li cel
        ASE_FILE_LINK_CEL =
      (match st.sprite.getCel li (fgetw s₃).1 with
       | some link =>
         (some { cel with image := st.sprite.stock.length },
          ((st.addImage (Image.createCopy
            (st.sprite.stock.getD link.image default))).2).addCel li
            { cel with image := st.sprite.stock.length },
          (⟨s₃.data, s₃.pos + 2⟩ : AseStream))
       | none => (none, st, (⟨s₃.data, s₃.pos + 2⟩ : AseStream))) :=
    fun _ => rfl
  have hstock : ((st.addImage (Image.createCopy
      (st.sprite.stock.getD link.image default))).2.addCel li
        { cel with image := st.sprite.stock.length }).sprite.stock =
      st.sprite.stock ++
        [Image.createCopy (st.sprite.stock.getD link.image default)] := by
    simp [LoadState.addImage, LoadState.addCel]
  refine ⟨?_, by omega, ?_, ?_, ?_, ?_⟩
  · rw [hkey, hlink]
  · rw [hkey, hlink]
    exact hstock
  · rw [hkey, hlink]
    rw [hstock, getD_append_length]
    rfl
  · intro img2
    rw [hkey, hlink, hstock]
    rw [getD_set_ne _ _ _ _ (by omega)]
    exact getD_append_lt _ _ _ hhandle
  · intro s₂ hnone
    rw [hkey, hnone]
    exact ⟨rfl, rfl⟩

/-- A sprite holding one image layer (store index 1) with a cel at
frame 0 whose image is stock handle 0. -/
def spC3 : Sprite :=
  { spW with
    layers := [⟨false, 0, [], 0, []⟩, ⟨true, 0, [], 0, [⟨0, 0, 0, 255, 0⟩]⟩],
    stock := [⟨.indexed, 1, 1, [5]⟩] }

/-- Its load state. -/
def stC3 : LoadState := ⟨spC3, 0, -1, [], [], true⟩

/-- Witness for `linked_cel_copies`: a Linked record referencing frame 0
on layer 1 of `spC3`. -/
theorem linked_cel_copies_witness :
    (ase_file_read_cel_payload (fun _ => none) .indexed 30 stC3 ⟨[0, 0], 0⟩ 1
        ⟨1, 0, 0, 128, 0⟩ ASE_FILE_LINK_CEL).1 =
      some { (⟨1, 0, 0, 128, 0⟩ : Cel) with
        image := stC3.sprite.stock.length } ∧
    stC3.sprite.stock.length ≠ (⟨0, 0, 0, 255, 0⟩ : Cel).image ∧
    (ase_file_read_cel_payload (fun _ => none) .indexed 30 stC3 ⟨[0, 0], 0⟩ 1
        ⟨1, 0, 0, 128, 0⟩ ASE_FILE_LINK_CEL).2.1.sprite.stock =
      stC3.sprite.stock ++
        [Image.createCopy (stC3.sprite.stock.getD
          (⟨0, 0, 0, 255, 0⟩ : Cel).image default)] ∧
    ((ase_file_read_cel_payload (fun _ => none) .indexed 30 stC3 ⟨[0, 0], 0⟩ 1
        ⟨1, 0, 0, 128, 0⟩ ASE_FILE_LINK_CEL).2.1.sprite.stock.getD
        stC3.sprite.stock.length default).pixels =
      (stC3.sprite.stock.getD (⟨0, 0, 0, 255, 0⟩ : Cel).image
        default).pixels ∧
    (∀ img2 : Image,
      (((ase_file_read_cel_payload (fun _ => none) .indexed 30 stC3
          ⟨[0, 0], 0⟩ 1 ⟨1, 0, 0, 128, 0⟩
          ASE_FILE_LINK_CEL).2.1.sprite.stock.set stC3.sprite.stock.length
          img2).getD (⟨0, 0, 0, 255, 0⟩ : Cel).image default) =
        stC3.sprite.stock.getD (⟨0, 0, 0, 255, 0⟩ : Cel).image default) ∧
    (∀ s₂ : AseStream, stC3.sprite.getCel 1 (fgetw s₂).1 = none →
      (ase_file_read_cel_payload (fun _ => none) .indexed 30 stC3 s₂ 1
          ⟨1, 0, 0, 128, 0⟩ ASE_FILE_LINK_CEL).1 = none ∧
      (ase_file_read_cel_payload (fun _ => none) .indexed 30 stC3 s₂ 1
          ⟨1, 0, 0, 128, 0⟩ ASE_FILE_LINK_CEL).2.1.sprite = stC3.sprite) :=
  linked_cel_copies (fun _ => none) .indexed 30 stC3 ⟨[0, 0], 0⟩ 1
    ⟨1, 0, 0, 128, 0⟩ ⟨0, 0, 0, 255, 0⟩ (by decide) (by decide)

/-- **C10.** On load every frame's duration starts as the header's legacy
speed field (`setDurationForAllFrames` over the resized frame list), and
one frame-loop iteration overwrites frame `f`'s duration with the frame
header's duration field exactly when the frame magic matches and that
field is strictly positive — a stored duration of 0 keeps the legacy
speed (the frame's chunks never touch durations). -/
theorem frame_duration_defaulting (zinf : List Nat → Option (List Nat)) :
    (∀ (fmt : PixelFormat) (w h n k d : Nat),
      (((Sprite.new fmt w h n).setTotalFrames k).setDurationForAllFrames
        d).durations = List.replicate k d) ∧
    (∀ (frame : Nat) (st : LoadState) (s : AseStream),
      (ase_read_frame zinf frame st s).1.sprite.durations =
        if (ase_file_read_frame_header s).1.magic = ASE_FILE_FRAME_MAGIC ∧
            0 < (ase_file_read_frame_header s).1.duration then
          st.sprite.durations.set frame
            (ase_file_read_frame_header s).1.duration
        else st.sprite.durations) := by
  constructor
  · intro fmt w h n k d
    rfl
  · intro frame st s
    have hkey : (ase_read_frame zinf frame st s).1.sprite.durations =
        ((if (ase_file_read_frame_header s).1.magic = ASE_FILE_FRAME_MAGIC then
            ase_read_chunks zinf frame (ase_file_read_frame_header s).1.chunks
              (if 0 < (ase_file_read_frame_header s).1.duration then
                { st.report s.pos with sprite := (st.sprite.setFrameDuration
                    frame (ase_file_read_frame_header s).1.duration) }
               else st.report s.pos) (ase_file_read_frame_header s).2
          else (st.report s.pos,
            (ase_file_read_frame_header s).2)).1).sprite.durations :=
      rfl
    rw [hkey]
    by_cases hm : (ase_file_read_frame_header s).1.magic =
        ASE_FILE_FRAME_MAGIC
    · rw [if_pos hm]
      rw [chunks_durations]
      by_cases hd : 0 < (ase_file_read_frame_header s).1.duration
      · rw [if_pos hd, if_pos ⟨hm, hd⟩]
        rfl
      · rw [if_neg hd, if_neg (by tauto)]
        rfl
    · rw [if_neg hm, if_neg (by tauto)]
      rfl

/-- **C7.** On save of an indexed-format sprite, a palette chunk is written for
frame `f` iff `f = 0` or frame `f`'s palette differs from frame `f-1`'s; every
palette chunk written is the direct-value kind (`ASE_FILE_CHUNK_FLI_COLOR2`)
whose body is exactly one packet with skip 0 and size byte
`entries.length % 256` (0 for a 256-entry palette) followed by the raw RGB
triples, and the legacy scaled kind (`ASE_FILE_CHUNK_FLI_COLOR`) is never
written. -/
theorem save_palette_chunk_policy :
    (∀ (d : List Nat) (fc ctp csp : Nat) (ty pr : List Nat) (pal : Palette),
      (ase_file_write_color2_chunk ⟨⟨d, d.length⟩, fc, ctp, csp, ty, pr⟩
          pal).w.data =
        d ++ (le4 (6 + (color2Body pal).length) ++
          (le2 ASE_FILE_CHUNK_FLI_COLOR2 ++ color2Body pal)) ∧
      (ase_file_write_color2_chunk ⟨⟨d, d.length⟩, fc, ctp, csp, ty, pr⟩
          pal).types = ty ++ [ASE_FILE_CHUNK_FLI_COLOR2] ∧
      (color2Body pal).length = 4 + 3 * pal.entries.length) ∧
    (∀ (zdef : List Nat → List Nat) (sprite : SSprite) (frame : Nat)
        (st : WState), ∃ ts,
      (ase_save_frame zdef sprite frame st).types = st.types ++ ts ∧
      ts.count ASE_FILE_CHUNK_FLI_COLOR2 =
        (if sprite.pixelFormat = .indexed ∧ (frame = 0 ∨
            0 < countDiff (getPaletteFrom sprite.palettes (frame - 1))
              (getPaletteFrom sprite.palettes frame)) then 1 else 0) ∧
      ASE_FILE_CHUNK_FLI_COLOR ∉ ts) := by
  constructor
  · intro d fc ctp csp ty pr pal
    refine ⟨?_, ?_, ?_⟩
    · rw [write_color2_key]
    · rw [write_color2_key]
    · unfold color2Body
      rw [List.length_append, flatMap_triple_length]
      simp
  · intro zdef sprite frame st
    exact save_frame_types zdef sprite frame st

set_option maxRecDepth 40000 in
/-- **C9 counterexample.** On `dataC9` the load succeeds and reports the
positions `[128, 144, 128, 144]` against the declared document size 1000:
the fraction sequence `128/1000, 144/1000, 128/1000, 144/1000` passed to
the progress callback is not monotonically non-decreasing, because the
first frame's declared size (0) seeks the driver backwards past the chunk
it just processed. -/
theorem progress_fraction_decreases :
    (AseFormat.onLoad (fun _ => some []) ⟨false, fun _ => false⟩
        ⟨dataC9, 0⟩).map (fun r => r.1.progress) =
      some [128, 144, 128, 144] ∧
    (ase_file_read_header ⟨dataC9, 0⟩).map (fun r => r.1.size) = some 1000 ∧
    ¬ List.Chain' (· ≤ ·)
      (([128, 144, 128, 144] : List Nat).map (fun p : Nat => (p : ℚ) / 1000)) := by
  refine ⟨by decide, by decide, ?_⟩
  intro hch
  simp only [List.map_cons, List.map_nil, List.chain'_cons,
    List.chain'_singleton, and_true] at hch
  obtain ⟨-, h2, -⟩ := hch
  norm_num at h2

/-- **C9.** (corrected) The progress fractions reported during a load are
monotonically non-decreasing provided every seek the driver performed
moved the cursor forward (the `fwd` instrumentation flag of the final
state): for any non-negative declared size, the reported positions divided
by it form a non-decreasing sequence.  (The unconditional claim is refuted
by `dataC9`, where a frame's declared size seeks backwards.) -/
theorem progress_monotone_when_seeks_forward
    (zinf : List Nat → Option (List Nat)) (cfg : FileOpCfg) (s : AseStream)
    (st : LoadState) (s' : AseStream)
    (h : AseFormat.onLoad zinf cfg s = some (st, s')) (hf : st.fwd = true) :
    ∀ sz : ℚ, 0 ≤ sz →
      List.Chain' (· ≤ ·) (st.progress.map (fun p : Nat => (p : ℚ) / sz)) := by
  intro sz hsz
  refine List.chain'_map_of_chain' (fun p : Nat => (p : ℚ) / sz) ?_
    (onLoad_progress_chain zinf cfg s st s' h hf)
  intro a b hab
  rcases eq_or_lt_of_le hsz with hz | hz
  · rw [← hz]
    simp
  · exact (div_le_div_iff_of_pos_right hz).mpr (Nat.cast_le.mpr hab)

set_option maxRecDepth 40000 in
/-- Witness for `progress_monotone_when_seeks_forward`: loading `dataW9`
succeeds, its final state has the forward flag set, 1000 is non-negative,
and the reported fractions are non-decreasing. -/
theorem progress_monotone_when_seeks_forward_witness :
    AseFormat.onLoad (fun _ => some []) ⟨false, fun _ => false⟩
        ⟨dataW9, 0⟩ = some outW9 ∧
    outW9.1.fwd = true ∧ (0 : ℚ) ≤ 1000 ∧
    List.Chain' (· ≤ ·) (outW9.1.progress.map (fun p : Nat => (p : ℚ) / 1000)) :=
  ⟨by decide, by decide, by norm_num,
   progress_monotone_when_seeks_forward (fun _ => some [])
     ⟨false, fun _ => false⟩ ⟨dataW9, 0⟩ outW9.1 outW9.2 (by decide)
     (by decide) 1000 (by norm_num)⟩

end Ase
